import Mathlib

/-!
# Verification of the olap-demos data-generation core

Shallow embedding of the synthetic star-schema generation engine of the
`olap-demos` repository: the partition-key/path model
(`src/models/facts.py`, `src/storage/partition_manager.py`), the weight
model and the dimension/fact generators (`src/datagen/generator.py`), and
the validators (`src/datagen/schemas.py`, `src/models/facts.py`).

Python floats are modelled as exact rationals (`ℚ`) with explicit rounding
to two decimals (`round2`), Python `date` values as a record of numerals,
and Python strings as Lean strings / character lists.  The process-wide
random number generators (`random`, `numpy.random` used implicitly by
`pandas.DataFrame.sample`, and `Faker`) are modelled as three explicit
deterministic streams threaded through every generator; `random.seed` /
`Faker.seed` reset their streams, nothing resets the numpy stream, exactly
as in the source.
-/

set_option autoImplicit false

namespace OlapDemos

/-! ## Decimal strings

`natChars n` is the Python `str(n)` rendering of a natural number as a
character list; `strOfNat` the same as a `String`. -/

/-- Characters of the base-10 rendering of `n`, as Python `str(n)` yields. -/
def natChars (n : ℕ) : List Char :=
  if n = 0 then ['0'] else ((Nat.digits 10 n).map Nat.digitChar).reverse

/-- Python `str(n)` for a natural number. -/
def strOfNat (n : ℕ) : String := ⟨natChars n⟩

/-- Numeric value of a decimal digit character. -/
def charVal (c : Char) : ℕ := c.toNat - 48

theorem charVal_digitChar {d : ℕ} (h : d < 10) : charVal (Nat.digitChar d) = d := by
  interval_cases d <;> rfl

theorem digitChar_ne_slash {d : ℕ} (h : d < 10) : Nat.digitChar d ≠ '/' := by
  interval_cases d <;> decide

theorem digitChar_ne_eq {d : ℕ} (h : d < 10) : Nat.digitChar d ≠ '=' := by
  interval_cases d <;> decide

theorem mem_natChars_digit {n : ℕ} {c : Char} (h : c ∈ natChars n) :
    ∃ d, d < 10 ∧ c = Nat.digitChar d := by
  unfold natChars at h
  by_cases h0 : n = 0
  · simp [h0] at h
    exact ⟨0, by norm_num, h⟩
  · simp [h0, List.mem_reverse, List.mem_map] at h
    obtain ⟨d, hd, rfl⟩ := h
    exact ⟨d, Nat.digits_lt_base (by norm_num) hd, rfl⟩

theorem slash_not_mem_natChars (n : ℕ) : '/' ∉ natChars n := by
  intro h
  obtain ⟨d, hd, hc⟩ := mem_natChars_digit h
  exact digitChar_ne_slash hd hc.symm

theorem eqchar_not_mem_natChars (n : ℕ) : '=' ∉ natChars n := by
  intro h
  obtain ⟨d, hd, hc⟩ := mem_natChars_digit h
  exact digitChar_ne_eq hd hc.symm

/-- Decode the characters written by `natChars`: evaluating the digit values
in little-endian order.  Left inverse of zero-padded decimal printing. -/
def decodeChars (l : List Char) : ℕ :=
  Nat.ofDigits 10 ((l.map charVal).reverse)

theorem decodeChars_pad (z n : ℕ) (hn : n ≠ 0) :
    decodeChars (List.replicate z '0' ++ natChars n) = n := by
  unfold decodeChars natChars
  simp only [hn, if_false]
  rw [List.map_append, List.reverse_append]
  have hmap : (((Nat.digits 10 n).map Nat.digitChar).reverse.map charVal).reverse
      = (Nat.digits 10 n).map (fun d => charVal (Nat.digitChar d)) := by
    rw [← List.map_reverse, List.reverse_reverse, List.map_map]
    rfl
  rw [hmap]
  have hdig : (Nat.digits 10 n).map (fun d => charVal (Nat.digitChar d)) = Nat.digits 10 n := by
    have hcong := List.map_congr_left (l := Nat.digits 10 n)
      (f := fun d => charVal (Nat.digitChar d)) (g := id)
      (fun d hd => charVal_digitChar (Nat.digits_lt_base (by norm_num) hd))
    rw [hcong, List.map_id]
  rw [hdig]
  have hz : (List.replicate z '0').map charVal = List.replicate z 0 := by
    rw [List.map_replicate]; rfl
  rw [hz, List.reverse_replicate, Nat.ofDigits_append, Nat.ofDigits_digits]
  have hzero : ∀ m : ℕ, Nat.ofDigits 10 (List.replicate m (0 : ℕ)) = 0 := by
    intro m
    induction m with
    | zero => rfl
    | succ k ih => rw [List.replicate_succ, Nat.ofDigits_cons, ih]
  simp [hzero]

/-! ## Rounding to two decimals

`round2` models Python `round(x, 2)` on exact rationals.  Python uses
banker's rounding on binary floats; for the proofs below only two facts
matter: the result is an integer multiple of `1/100`, and a value that
already is such a multiple is left unchanged.  Both hold for any
round-to-nearest rule. -/

/-- `round(x, 2)`: round to the nearest multiple of `1/100`. -/
def round2 (x : ℚ) : ℚ := (round (x * 100) : ℤ) / 100

theorem round2_centi (x : ℚ) : ∃ k : ℤ, round2 x = k / 100 :=
  ⟨round (x * 100), rfl⟩

theorem round2_eq_self {x : ℚ} (h : ∃ k : ℤ, x = k / 100) : round2 x = x := by
  obtain ⟨k, rfl⟩ := h
  unfold round2
  have h100 : (k : ℚ) / 100 * 100 = (k : ℚ) := div_mul_cancel₀ _ (by norm_num)
  rw [h100, round_intCast]

/-- A natural multiple of a centesimal rational is again centesimal. -/
theorem nat_mul_centi {x : ℚ} (q : ℕ) (h : ∃ k : ℤ, x = k / 100) :
    ∃ k : ℤ, (q : ℚ) * x = k / 100 := by
  obtain ⟨k, rfl⟩ := h
  exact ⟨q * k, by push_cast; ring⟩

theorem sub_centi {x y : ℚ} (hx : ∃ k : ℤ, x = k / 100) (hy : ∃ k : ℤ, y = k / 100) :
    ∃ k : ℤ, x - y = k / 100 := by
  obtain ⟨a, rfl⟩ := hx
  obtain ⟨b, rfl⟩ := hy
  exact ⟨a - b, by push_cast; ring⟩

/-! ## Character-level string splitting

Models Python `str.split(sep)` (for a one-character separator) and
`str.split(sep, 1)` as used by `PartitionManager.parse_partition_path`. -/

/-- Python `s.split(c)` on a character list: every occurrence of `c`
separates two (possibly empty) segments. -/
def splitOnChar (c : Char) : List Char → List (List Char)
  | [] => [[]]
  | a :: t =>
    let r := splitOnChar c t
    if a = c then [] :: r
    else (a :: r.headD []) :: r.tail

theorem splitOnChar_ne_nil (c : Char) (l : List Char) : splitOnChar c l ≠ [] := by
  cases l with
  | nil => simp [splitOnChar]
  | cons a t =>
    simp only [splitOnChar]
    by_cases h : a = c <;> simp [h]

theorem splitOnChar_append (c : Char) (xs ys : List Char) :
    splitOnChar c (xs ++ c :: ys) = splitOnChar c xs ++ splitOnChar c ys := by
  induction xs with
  | nil => simp [splitOnChar]
  | cons a t ih =>
    by_cases h : a = c
    · simp only [List.cons_append, splitOnChar, if_pos h, List.append_eq]
      rw [ih]
    · obtain ⟨b, r, hr⟩ : ∃ b r, splitOnChar c t = b :: r := by
        cases hsp : splitOnChar c t with
        | nil => exact absurd hsp (splitOnChar_ne_nil c t)
        | cons b r => exact ⟨b, r, rfl⟩
      simp only [List.cons_append, splitOnChar, if_neg h, List.append_eq]
      rw [ih, hr]
      simp

theorem splitOnChar_of_not_mem {c : Char} {l : List Char} (h : c ∉ l) :
    splitOnChar c l = [l] := by
  induction l with
  | nil => rfl
  | cons a t ih =>
    simp only [List.mem_cons, not_or] at h
    have h1 : ¬a = c := fun hh => h.1 hh.symm
    simp [splitOnChar, h1, ih h.2]

/-- Python `part.split(sep, 1)` guarded by `if sep in part`: returns the text
before the first `c` and everything after it, or `none` when `c` is absent. -/
def splitFirst (c : Char) : List Char → Option (List Char × List Char)
  | [] => none
  | a :: t =>
    if a = c then some ([], t)
    else (splitFirst c t).map (fun p => (a :: p.1, p.2))

theorem splitFirst_append {c : Char} {k : List Char} (hk : c ∉ k) (v : List Char) :
    splitFirst c (k ++ c :: v) = some (k, v) := by
  induction k with
  | nil => simp [splitFirst]
  | cons a t ih =>
    simp only [List.mem_cons, not_or] at hk
    have h1 : ¬a = c := fun hh => hk.1 hh.symm
    simp [splitFirst, h1, ih hk.2]

/-- Final value a Python `dict` built by iterated assignment holds at `k`:
the last pair for the key wins. -/
def dictGet (k : List Char) (ps : List (List Char × List Char)) : Option (List Char) :=
  ps.foldl (fun acc p => if p.1 = k then some p.2 else acc) none

/-! ## Dates

Python `datetime.date` values; only the numeric fields matter to the core. -/

/-- A calendar date as the Python code reads it (`.year`, `.month`, `.day`). -/
structure PyDate where
  year : ℕ
  month : ℕ
  day : ℕ
deriving DecidableEq, Repr

/-- Fixed SCD anchor `date(2022, 1, 1)`. -/
def historicalDate : PyDate := ⟨2022, 1, 1⟩

/-- Fixed SCD anchor `date(2024, 1, 1)`. -/
def currentAnchorDate : PyDate := ⟨2024, 1, 1⟩

/-- The SCD Type 2 sentinel `date(9999, 12, 31)`. -/
def farFuture : PyDate := ⟨9999, 12, 31⟩

/-! ## Partition key model

`models/facts.py` (`extract_partition_keys`, `partition_path`) and
`storage/partition_manager.py` (`PartitionManager.extract_year_quarter`,
`add_partition_columns`, `parse_partition_path`). -/

/-- The quarter number `(month - 1) // 3 + 1` shared by
`extract_partition_keys` and `extract_year_quarter`. -/
def quarterNum (month : ℕ) : ℕ := (month - 1) / 3 + 1

/-- The quarter label `f"Q{(month - 1) // 3 + 1}"`. -/
def quarterStr (month : ℕ) : String := ⟨'Q' :: natChars (quarterNum month)⟩

/-- `models/facts.extract_partition_keys`: the `{"year": ..., "quarter": ...}`
dict, modelled as its (ordered) pair list. -/
def extract_partition_keys (d : PyDate) : List (String × String) :=
  [("year", strOfNat d.year), ("quarter", quarterStr d.month)]

/-- `PartitionManager.extract_year_quarter`: the `(year, quarter)` tuple. -/
def extract_year_quarter (d : PyDate) : ℕ × String :=
  (d.year, quarterStr d.month)

/-- `pandas.Series.dt.quarter` for a date of month `m`: the quarter of the
date, `⌈m / 3⌉`, i.e. `(m + 2) / 3` in natural division. -/
def pandasQuarter (m : ℕ) : ℕ := (m + 2) / 3

/-- `PartitionManager.add_partition_columns` applied to one row whose date
column holds `d`: the `(year, quarter)` column values the row receives
(`df['year'] = dt.year`, `df['quarter'] = dt.quarter.apply(lambda q: f"Q{q}")`).
The source copies the frame first, so the input row is untouched. -/
def add_partition_columns_row (d : PyDate) : ℕ × String :=
  (d.year, ⟨'Q' :: natChars (pandasQuarter d.month)⟩)

/-- `models/facts.partition_path`:
`f"{base_path}/year={keys['year']}/quarter={keys['quarter']}"`, on character
lists. -/
def partition_path (d : PyDate) (base : List Char) : List Char :=
  base ++ "/year=".data ++ (strOfNat d.year).data
    ++ "/quarter=".data ++ (quarterStr d.month).data

/-- `PartitionManager.parse_partition_path`: split on `/`, keep the segments
containing `=`, split each on the first `=`; the resulting dict is modelled
by the ordered pair list (`dictGet` reads it with last-wins semantics). -/
def parse_partition_path (p : List Char) : List (List Char × List Char) :=
  (splitOnChar '/' p).filterMap (splitFirst '=')

theorem pandasQuarter_eq {m : ℕ} (h : 1 ≤ m) : pandasQuarter m = (m - 1) / 3 + 1 := by
  obtain ⟨k, rfl⟩ := Nat.exists_eq_add_of_le h
  unfold pandasQuarter
  omega

/-- **C1.** The `(year, quarter)` partition key is derived identically by
`models/facts.extract_partition_keys`,
`PartitionManager.extract_year_quarter` and
`PartitionManager.add_partition_columns` (the latter on a row whose date
column holds `d`): all yield the year `d.year` (as a string in
`extract_partition_keys`) and the quarter string
`"Q" + str((d.month - 1) // 3 + 1)`. -/
theorem partition_key_derivation_agrees (d : PyDate) (h : 1 ≤ d.month) :
    (extract_year_quarter d).1 = d.year
    ∧ (extract_year_quarter d).2 = ⟨'Q' :: natChars ((d.month - 1) / 3 + 1)⟩
    ∧ extract_partition_keys d
        = [("year", strOfNat (extract_year_quarter d).1), ("quarter", (extract_year_quarter d).2)]
    ∧ add_partition_columns_row d = extract_year_quarter d := by
  refine ⟨rfl, rfl, rfl, ?_⟩
  unfold add_partition_columns_row extract_year_quarter quarterStr quarterNum
  rw [pandasQuarter_eq h]

/-- Witness for C1 at the concrete date 2023-02-15. -/
theorem partition_key_derivation_agrees_witness :
    (1 ≤ (⟨2023, 2, 15⟩ : PyDate).month)
    ∧ add_partition_columns_row ⟨2023, 2, 15⟩ = extract_year_quarter ⟨2023, 2, 15⟩ :=
  ⟨by decide, (partition_key_derivation_agrees ⟨2023, 2, 15⟩ (by decide)).2.2.2⟩

theorem slash_not_mem_year_seg (Y : List Char) (hY : '/' ∉ Y) :
    '/' ∉ ("year".data ++ '=' :: Y) := by
  intro hmem
  rw [List.mem_append] at hmem
  rcases hmem with hmem | hmem
  · revert hmem; decide
  · rcases List.mem_cons.mp hmem with hmem | hmem
    · exact absurd hmem (by decide)
    · exact hY hmem

theorem slash_not_mem_quarter_seg (Q : List Char) (hQ : '/' ∉ Q) :
    '/' ∉ ("quarter".data ++ '=' :: Q) := by
  intro hmem
  rw [List.mem_append] at hmem
  rcases hmem with hmem | hmem
  · revert hmem; decide
  · rcases List.mem_cons.mp hmem with hmem | hmem
    · exact absurd hmem (by decide)
    · exact hQ hmem

/-- **C3.** Round-trip law of the partition path model: for every date and
every base path, parsing the generated partition path recovers
`"year" ↦ str(d.year)` and `"quarter" ↦ "Q" + str((d.month - 1) // 3 + 1)`
(the real partition segments come last, so they win even when the base path
itself contains `key=value` segments). -/
theorem parse_partition_path_roundtrip (d : PyDate) (base : List Char) :
    dictGet "year".data (parse_partition_path (partition_path d base))
      = some (strOfNat d.year).data
    ∧ dictGet "quarter".data (parse_partition_path (partition_path d base))
      = some ('Q' :: natChars ((d.month - 1) / 3 + 1)) := by
  set Y : List Char := natChars d.year with hY
  set Q : List Char := 'Q' :: natChars (quarterNum d.month) with hQdef
  have hpath : partition_path d base
      = base ++ '/' :: (("year".data ++ '=' :: Y) ++ '/' :: ("quarter".data ++ '=' :: Q)) := by
    show base ++ "/year=".data ++ (strOfNat d.year).data
        ++ "/quarter=".data ++ (quarterStr d.month).data = _
    have h1 : (strOfNat d.year).data = Y := rfl
    have h2 : (quarterStr d.month).data = Q := rfl
    rw [h1, h2]
    simp [List.append_assoc]
  have hYs : '/' ∉ Y := slash_not_mem_natChars d.year
  have hQs : '/' ∉ Q := by
    intro hmem
    rcases List.mem_cons.mp hmem with hmem | hmem
    · exact absurd hmem (by decide)
    · exact slash_not_mem_natChars _ hmem
  have hsplit : splitOnChar '/' (partition_path d base)
      = splitOnChar '/' base ++ [("year".data ++ '=' :: Y), ("quarter".data ++ '=' :: Q)] := by
    rw [hpath, splitOnChar_append, splitOnChar_append,
      splitOnChar_of_not_mem (slash_not_mem_year_seg Y hYs),
      splitOnChar_of_not_mem (slash_not_mem_quarter_seg Q hQs)]
    simp
  have hparse : parse_partition_path (partition_path d base)
      = (splitOnChar '/' base).filterMap (splitFirst '=')
          ++ [("year".data, Y), ("quarter".data, Q)] := by
    unfold parse_partition_path
    rw [hsplit, List.filterMap_append]
    congr 1
  constructor
  · rw [hparse]
    unfold dictGet
    rw [List.foldl_append]
    simp
    rfl
  · rw [hparse]
    unfold dictGet
    rw [List.foldl_append]
    simp
    rfl

/-! ## Weight model

`datagen/generator.py`: `_create_pareto_weights` and
`_create_recency_weights`.  The source computes the cut as
`max(1, int(n * 0.2))`; for IEEE doubles the product `n * 0.2` never crosses
an integer boundary (its relative error is below half an ulp), so
`int(n * 0.2) == n // 5` exactly, which is how the cut is embedded here. -/

/-- `_create_pareto_weights(n, factor)`: the top `max(1, n // 5)` indices get
`factor / top` each, the rest `(1 - factor) / (n - top)` each. -/
def _create_pareto_weights (n : ℕ) (factor : ℚ) : List ℚ :=
  let top := max 1 (n / 5)
  (List.range n).map (fun i =>
    if i < top then factor / (top : ℚ) else (1 - factor) / ((n : ℚ) - (top : ℚ)))

/-- `_create_recency_weights(n)`: linearly increasing weights `1, 2, …, n`. -/
def _create_recency_weights (n : ℕ) : List ℚ :=
  (List.range n).map (fun i => (i : ℚ) + 1)

/-- **C5 counterexample.** At `n = 1`, `factor = 0.8` the function returns
`[0.8]`, not the `[1.0]` the claim states, and the weights do not sum to 1. -/
theorem pareto_weights_one_ne_claimed :
    _create_pareto_weights 1 (4/5) = [4/5]
    ∧ _create_pareto_weights 1 (4/5) ≠ [1]
    ∧ (_create_pareto_weights 1 (4/5)).sum ≠ 1 := by
  have hr1 : List.range 1 = [0] := rfl
  refine ⟨?_, ?_, ?_⟩ <;> norm_num [_create_pareto_weights, hr1]

/-- **C5 (amended).** For `n ≥ 2` and `factor ∈ [0, 1)` the weights have
length `n`, sum to 1, the top `max(1, n // 5)` entries each equal
`factor / top_count` and the remaining entries each equal
`(1 - factor) / (n - top_count)`; in the edge case `n = 1` the function
returns `[factor]` (hence `[0.8]`, not `[1.0]`, at the default factor). -/
theorem pareto_weights_shape (n : ℕ) (factor : ℚ)
    (hn : 2 ≤ n) (h0 : 0 ≤ factor) (h1 : factor < 1) :
    (_create_pareto_weights n factor).length = n
    ∧ (_create_pareto_weights n factor).sum = 1
    ∧ (∀ i, i < max 1 (n / 5) →
        (_create_pareto_weights n factor)[i]? = some (factor / (max 1 (n / 5) : ℕ)))
    ∧ (∀ i, max 1 (n / 5) ≤ i → i < n →
        (_create_pareto_weights n factor)[i]?
          = some ((1 - factor) / ((n : ℚ) - (max 1 (n / 5) : ℕ))))
    ∧ _create_pareto_weights 1 factor = [factor] := by
  have htop_lt : max 1 (n / 5) < n := by
    have h5 : n / 5 < n := Nat.div_lt_self (by omega) (by norm_num)
    omega
  have htop_le : max 1 (n / 5) ≤ n := le_of_lt htop_lt
  set top := max 1 (n / 5) with htopdef
  have htop_pos : 0 < top := by omega
  have htopQ : ((top : ℕ) : ℚ) ≠ 0 := by positivity
  have hrestQ : ((n : ℚ) - (top : ℚ)) ≠ 0 := by
    have : ((top : ℕ) : ℚ) < (n : ℚ) := by exact_mod_cast htop_lt
    linarith
  refine ⟨by simp [_create_pareto_weights], ?_, ?_, ?_, ?_⟩
  · unfold _create_pareto_weights
    rw [← htopdef]
    obtain ⟨m, hm⟩ : ∃ m, n = top + m := ⟨n - top, by omega⟩
    have hmpos : 0 < m := by omega
    set A := factor / (top : ℚ) with hA
    set B := (1 - factor) / ((n : ℚ) - (top : ℚ)) with hB
    rw [show List.range n = List.range (top + m) from by rw [← hm],
      List.range_add, List.map_append, List.sum_append]
    have hfirst : (List.range top).map (fun i => if i < top then A else B)
        = List.replicate top A := by
      rw [List.eq_replicate_iff]
      refine ⟨by simp, ?_⟩
      intro b hb
      rw [List.mem_map] at hb
      obtain ⟨i, hi, rfl⟩ := hb
      rw [List.mem_range] at hi
      simp [hi]
    have hsecond : ((List.range m).map (top + ·)).map (fun i => if i < top then A else B)
        = List.replicate m B := by
      rw [List.eq_replicate_iff]
      refine ⟨by simp, ?_⟩
      intro b hb
      rw [List.map_map, List.mem_map] at hb
      obtain ⟨i, hi, rfl⟩ := hb
      simp
    rw [hfirst, hsecond, List.sum_replicate, List.sum_replicate,
      nsmul_eq_mul, nsmul_eq_mul]
    have hc1 : (top : ℚ) * A = factor := by
      rw [hA]; field_simp
    have hmq : ((m : ℕ) : ℚ) = (n : ℚ) - (top : ℚ) := by
      rw [hm]; push_cast; ring
    have hc2 : (m : ℚ) * B = 1 - factor := by
      rw [hB, hmq]; field_simp
    rw [hc1, hc2]; ring
  · intro i hi
    unfold _create_pareto_weights
    rw [← htopdef]
    rw [List.getElem?_map, List.getElem?_range (lt_of_lt_of_le hi htop_le)]
    simp [hi]
  · intro i hge hlt
    unfold _create_pareto_weights
    rw [← htopdef]
    rw [List.getElem?_map, List.getElem?_range hlt]
    simp [Nat.not_lt.mpr hge]
  · show _create_pareto_weights 1 factor = [factor]
    unfold _create_pareto_weights
    simp [show List.range 1 = [0] from rfl]

/-- Witness for C5 (amended) at `n = 7`, `factor = 4/5`: `top = max 1 (7/5) = 1`. -/
theorem pareto_weights_shape_witness :
    (_create_pareto_weights 7 (4/5)).sum = 1
    ∧ (_create_pareto_weights 7 (4/5))[0]? = some ((4/5 : ℚ) / (max 1 (7 / 5) : ℕ))
    ∧ (_create_pareto_weights 7 (4/5))[3]?
        = some ((1 - 4/5 : ℚ) / ((7 : ℚ) - (max 1 (7 / 5) : ℕ)))
    ∧ _create_pareto_weights 1 (4/5) = [4/5] := by
  obtain ⟨hlen, hsum, htop, hrest, hone⟩ :=
    pareto_weights_shape 7 (4/5) (by norm_num) (by norm_num) (by norm_num)
  exact ⟨hsum, htop 0 (by norm_num), hrest 3 (by norm_num) (by norm_num), hone⟩

/-! ## Random number generator model

The Python process holds three independent global pseudo-random streams:
the `random` module stream, the `numpy.random` global stream (consumed
implicitly by `pandas.DataFrame.sample` when no `random_state` is given),
and the `Faker` stream.  `DataGenerator.__init__(seed)` calls
`Faker.seed(seed)` and `random.seed(seed)` — and nothing else; in
particular the numpy stream is never (re)seeded.

The Mersenne-Twister transition is abstracted as a small deterministic
linear-congruential transition; which concrete values a stream yields is
irrelevant to the properties below — what matters is which stream each
operation consumes and that selection from an empty population fails. -/

/-- One step of a pseudo-random stream: new state and a raw draw. -/
def rngNext (s : ℕ) : ℕ × ℕ :=
  let s' := (25173 * s + 13849) % 32768
  (s', s')

/-- The three process-wide RNG states: `random`, numpy global, `Faker`. -/
structure Globals where
  py : ℕ
  np : ℕ
  fk : ℕ
deriving DecidableEq, Repr

/-- `DataGenerator.__init__(seed)`: `Faker.seed(seed); random.seed(seed)`.
The numpy stream is not touched. -/
def seedGlobals (seed : ℕ) (g : Globals) : Globals :=
  { g with py := seed % 32768, fk := seed % 32768 }

/-- Draw from the `random` module stream. -/
def pyDraw (g : Globals) : ℕ × Globals :=
  ((rngNext g.py).2, { g with py := (rngNext g.py).1 })

/-- Draw from the numpy global stream (used by `DataFrame.sample`). -/
def npDraw (g : Globals) : ℕ × Globals :=
  ((rngNext g.np).2, { g with np := (rngNext g.np).1 })

/-- Draw from the `Faker` stream. -/
def fkDraw (g : Globals) : ℕ × Globals :=
  ((rngNext g.fk).2, { g with fk := (rngNext g.fk).1 })

/-- `random.random()`: a rational in `[0, 1)`. -/
def pyRandom (g : Globals) : ℚ × Globals :=
  (((pyDraw g).1 : ℚ) / 32768, (pyDraw g).2)

/-- `random.uniform(a, b)`. -/
def pyUniform (a b : ℚ) (g : Globals) : ℚ × Globals :=
  (a + (b - a) * (pyRandom g).1, (pyRandom g).2)

/-- `random.randint(a, b)` (both ends inclusive, `a ≤ b` at every call site). -/
def pyRandint (a b : ℕ) (g : Globals) : ℕ × Globals :=
  (a + (pyDraw g).1 % (b + 1 - a), (pyDraw g).2)

/-- Uniform pick of an element, as `random.choice` / an unweighted
`DataFrame.sample(n=1)` perform after their stream draw. -/
def pickFrom {α : Type} (d : α) (l : List α) (v : ℕ) : α :=
  l.getD (v % l.length) d

/-! ## Product dimension generator (`generate_dim_product`) -/

/-- Fixed category/subcategory table of `generate_dim_product`. -/
def categoriesList : List (String × List String) :=
  [("Electronics", ["Smartphones", "Laptops", "Tablets", "Accessories"]),
   ("Clothing", ["Mens", "Womens", "Kids", "Accessories"]),
   ("Home & Garden", ["Furniture", "Decor", "Kitchen", "Outdoor"]),
   ("Sports", ["Equipment", "Apparel", "Footwear", "Accessories"]),
   ("Books", ["Fiction", "Non-Fiction", "Educational", "Comics"])]

/-- Fixed brand list of `generate_dim_product`. -/
def brandsList : List String :=
  ["BrandA", "BrandB", "BrandC", "BrandD", "BrandE", "BrandF", "BrandG"]

/-- Zero-pad the decimal rendering of `n` to width 5, as `f"{n:05d}"`. -/
def padNum5 (n : ℕ) : List Char :=
  List.replicate (5 - (natChars n).length) '0' ++ natChars n

/-- The natural key `f"PROD-{n:05d}"`. -/
def fmtProductId (n : ℕ) : String := ⟨"PROD-".data ++ padNum5 n⟩

theorem fmtProductId_inj {a b : ℕ} (ha : a ≠ 0) (hb : b ≠ 0)
    (h : fmtProductId a = fmtProductId b) : a = b := by
  have hdata : "PROD-".data ++ padNum5 a = "PROD-".data ++ padNum5 b :=
    congrArg String.data h
  have hpad : padNum5 a = padNum5 b := List.append_cancel_left hdata
  have hda := decodeChars_pad (5 - (natChars a).length) a ha
  have hdb := decodeChars_pad (5 - (natChars b).length) b hb
  unfold padNum5 at hpad
  rw [← hda, ← hdb, hpad]

/-- One row of the product dimension. -/
structure ProductRow where
  product_key : ℕ
  product_id : String
  product_name : String
  category : String
  subcategory : String
  brand : String
  unit_cost : ℚ
  unit_price : ℚ
  effective_date : PyDate
  expiration_date : PyDate
  is_current : Bool
deriving DecidableEq, Repr

/-- The body of one iteration of the `generate_dim_product` loop: the rows
emitted for natural key `PROD-{idx+1:05d}` (historical version first when the
weighted coin fires), the next surrogate key, and the updated RNG state. -/
def productBlock (change_rate : ℚ) (idx key : ℕ) (g : Globals) :
    List ProductRow × ℕ × Globals :=
  let pid := fmtProductId (idx + 1)
  let dcat := pyDraw g
  let cat := pickFrom ("Electronics", ["Smartphones"]) categoriesList dcat.1
  let dsub := pyDraw dcat.2
  let subcategory := pickFrom "Accessories" cat.2 dsub.1
  let dbr := pyDraw dsub.2
  let brand := pickFrom "BrandA" brandsList dbr.1
  let dcol := fkDraw dbr.2
  let pname := brand ++ " " ++ subcategory ++ " " ++ "Color" ++ strOfNat dcol.1
  let du1 := pyUniform 5 200 dcol.2
  let unit_cost := round2 du1.1
  let du2 := pyUniform (13/10) (5/2) du1.2
  let unit_price := round2 (unit_cost * du2.1)
  let dch := pyRandom du2.2
  if dch.1 < change_rate then
    let du3 := pyUniform (4/5) (6/5) dch.2
    let old_price := round2 (unit_price * du3.1)
    let du4 := pyUniform (13/10) (5/2) du3.2
    let old_cost := round2 (old_price / du4.1)
    ([⟨key, pid, pname, cat.1, subcategory, brand, old_cost, old_price,
        historicalDate, currentAnchorDate, false⟩,
      ⟨key + 1, pid, pname, cat.1, subcategory, brand, unit_cost, unit_price,
        currentAnchorDate, farFuture, true⟩],
     key + 2, du4.2)
  else
    ([⟨key, pid, pname, cat.1, subcategory, brand, unit_cost, unit_price,
        historicalDate, farFuture, true⟩],
     key + 1, dch.2)

/-- The `generate_dim_product` loop over `rem` remaining natural keys,
starting at index `idx` with next surrogate key `key`. -/
def genProductAux (change_rate : ℚ) : ℕ → ℕ → ℕ → Globals → List ProductRow × ℕ × Globals
  | _, 0, key, g => ([], key, g)
  | idx, r + 1, key, g =>
    let p := productBlock change_rate idx key g
    let q := genProductAux change_rate (idx + 1) r p.2.1 p.2.2
    (p.1 ++ q.1, q.2)

/-- `generate_dim_product(num_products, change_rate, seed)`: reseeds the
`random`/`Faker` streams, then emits one or two rows per natural key. -/
def generate_dim_product (num_products : ℕ) (change_rate : ℚ) (seed : ℕ)
    (g : Globals) : List ProductRow × Globals :=
  let g0 := seedGlobals seed g
  let q := genProductAux change_rate 0 num_products 1 g0
  (q.1, q.2.2)

theorem productBlock_spec (cr : ℚ) (idx key : ℕ) (g : Globals) :
    (∀ p ∈ (productBlock cr idx key g).1, p.product_id = fmtProductId (idx + 1))
    ∧ ((productBlock cr idx key g).1.filter (fun p => p.is_current)).length = 1
    ∧ (∀ p ∈ (productBlock cr idx key g).1, p.is_current = true →
        p.expiration_date = farFuture)
    ∧ (∀ p c, p ∈ (productBlock cr idx key g).1 → c ∈ (productBlock cr idx key g).1 →
        p.is_current = false → c.is_current = true →
        p.expiration_date = c.effective_date) := by
  unfold productBlock
  simp only []
  split
  · refine ⟨?_, rfl, ?_, ?_⟩
    · intro p hp
      simp only [List.mem_cons, List.not_mem_nil, or_false] at hp
      rcases hp with rfl | rfl <;> rfl
    · intro p hp hcur
      simp only [List.mem_cons, List.not_mem_nil, or_false] at hp
      rcases hp with rfl | rfl
      · simp at hcur
      · rfl
    · intro p c hp hc hpf hct
      simp only [List.mem_cons, List.not_mem_nil, or_false] at hp hc
      rcases hp with rfl | rfl <;> rcases hc with rfl | rfl
      · simp at hct
      · rfl
      · simp at hpf
      · simp at hpf
  · refine ⟨?_, rfl, ?_, ?_⟩
    · intro p hp
      simp only [List.mem_cons, List.not_mem_nil, or_false] at hp
      rcases hp with rfl
      rfl
    · intro p hp hcur
      simp only [List.mem_cons, List.not_mem_nil, or_false] at hp
      rcases hp with rfl
      rfl
    · intro p c hp hc hpf hct
      simp only [List.mem_cons, List.not_mem_nil, or_false] at hp hc
      rcases hp with rfl
      simp at hpf

theorem genProductAux_invariant (cr : ℚ) (r : ℕ) :
    ∀ (idx key : ℕ) (g : Globals),
    (∀ p ∈ (genProductAux cr idx r key g).1,
        ∃ j, idx ≤ j ∧ j < idx + r ∧ p.product_id = fmtProductId (j + 1))
    ∧ (∀ j, idx ≤ j → j < idx + r →
        ((genProductAux cr idx r key g).1.filter
          (fun p => p.product_id == fmtProductId (j + 1) && p.is_current)).length = 1)
    ∧ (∀ p ∈ (genProductAux cr idx r key g).1, p.is_current = true →
        p.expiration_date = farFuture)
    ∧ (∀ p c, p ∈ (genProductAux cr idx r key g).1 →
        c ∈ (genProductAux cr idx r key g).1 →
        p.product_id = c.product_id → p.is_current = false → c.is_current = true →
        p.expiration_date = c.effective_date) := by
  induction r with
  | zero =>
    intro idx key g
    refine ⟨?_, ?_, ?_, ?_⟩
    · intro p hp; exact absurd hp (by simp [genProductAux])
    · intro j hj1 hj2; omega
    · intro p hp; exact absurd hp (by simp [genProductAux])
    · intro p c hp; exact absurd hp (by simp [genProductAux])
  | succ r ih =>
    intro idx key g
    obtain ⟨hbid, hbcur, hbfar, hbpair⟩ := productBlock_spec cr idx key g
    obtain ⟨ih1, ih2, ih3, ih4⟩ :=
      ih (idx + 1) (productBlock cr idx key g).2.1 (productBlock cr idx key g).2.2
    have hrows : (genProductAux cr idx (r + 1) key g).1
        = (productBlock cr idx key g).1
          ++ (genProductAux cr (idx + 1) r (productBlock cr idx key g).2.1
                (productBlock cr idx key g).2.2).1 := rfl
    refine ⟨?_, ?_, ?_, ?_⟩
    · intro p hp
      rw [hrows, List.mem_append] at hp
      rcases hp with hp | hp
      · exact ⟨idx, le_refl _, by omega, hbid p hp⟩
      · obtain ⟨j, hj1, hj2, hj3⟩ := ih1 p hp
        exact ⟨j, by omega, by omega, hj3⟩
    · intro j hj1 hj2
      rw [hrows, List.filter_append, List.length_append]
      by_cases hji : j = idx
      · subst hji
        have hblock : (productBlock cr j key g).1.filter
            (fun p => p.product_id == fmtProductId (j + 1) && p.is_current)
            = (productBlock cr j key g).1.filter (fun p => p.is_current) := by
          apply List.filter_congr
          intro p hp
          rw [hbid p hp]
          simp
        have hrest : (genProductAux cr (j + 1) r (productBlock cr j key g).2.1
            (productBlock cr j key g).2.2).1.filter
            (fun p => p.product_id == fmtProductId (j + 1) && p.is_current) = [] := by
          rw [List.filter_eq_nil_iff]
          intro p hp
          obtain ⟨j', hj'1, hj'2, hj'3⟩ := ih1 p hp
          have hne : p.product_id ≠ fmtProductId (j + 1) := by
            rw [hj'3]
            intro hc
            have := fmtProductId_inj (by omega) (by omega) hc
            omega
          simp [hne]
        rw [hblock, hrest, hbcur]
        rfl
      · have hblock0 : (productBlock cr idx key g).1.filter
            (fun p => p.product_id == fmtProductId (j + 1) && p.is_current) = [] := by
          rw [List.filter_eq_nil_iff]
          intro p hp
          have hne : p.product_id ≠ fmtProductId (j + 1) := by
            rw [hbid p hp]
            intro hc
            have := fmtProductId_inj (by omega) (by omega) hc
            omega
          simp [hne]
        rw [hblock0, ih2 j (by omega) (by omega)]
        rfl
    · intro p hp hcur
      rw [hrows, List.mem_append] at hp
      rcases hp with hp | hp
      · exact hbfar p hp hcur
      · exact ih3 p hp hcur
    · intro p c hp hc hid hpf hct
      rw [hrows, List.mem_append] at hp hc
      rcases hp with hp | hp <;> rcases hc with hc | hc
      · exact hbpair p c hp hc hpf hct
      · obtain ⟨j, hj1, hj2, hj3⟩ := ih1 c hc
        have hpid := hbid p hp
        rw [hpid, hj3] at hid
        have := fmtProductId_inj (by omega) (by omega) hid
        omega
      · obtain ⟨j, hj1, hj2, hj3⟩ := ih1 p hp
        have hcid := hbid c hc
        rw [hcid, hj3] at hid
        have := fmtProductId_inj (by omega) (by omega) hid.symm
        omega
      · exact ih4 p c hp hc hid hpf hct

/-- **C4.** SCD Type 2 invariant of `generate_dim_product`: for every natural
key `product_id` occurring in the output, exactly one row is current, every
current row carries the sentinel expiration date 9999-12-31, and every
historical row for a natural key expires exactly at the current row's
effective date (no gap, no overlap). -/
theorem generate_dim_product_scd2 (n : ℕ) (cr : ℚ) (seed : ℕ) (g : Globals)
    (pid : String)
    (hpid : pid ∈ (generate_dim_product n cr seed g).1.map (fun p => p.product_id)) :
    ((generate_dim_product n cr seed g).1.filter
        (fun p => p.product_id == pid && p.is_current)).length = 1
    ∧ (∀ p ∈ (generate_dim_product n cr seed g).1, p.is_current = true →
        p.expiration_date = farFuture)
    ∧ (∀ p c, p ∈ (generate_dim_product n cr seed g).1 →
        c ∈ (generate_dim_product n cr seed g).1 →
        p.product_id = pid → c.product_id = pid →
        p.is_current = false → c.is_current = true →
        p.expiration_date = c.effective_date) := by
  obtain ⟨h1, h2, h3, h4⟩ := genProductAux_invariant cr n 0 1 (seedGlobals seed g)
  have hrows : (generate_dim_product n cr seed g).1
      = (genProductAux cr 0 n 1 (seedGlobals seed g)).1 := rfl
  rw [List.mem_map] at hpid
  obtain ⟨p0, hp0, hpid0⟩ := hpid
  rw [hrows] at hp0 ⊢
  obtain ⟨j, hj1, hj2, hj3⟩ := h1 p0 hp0
  have hpidj : pid = fmtProductId (j + 1) := by rw [← hpid0, hj3]
  refine ⟨?_, ?_, ?_⟩
  · rw [hpidj]
    exact h2 j (by omega) (by omega)
  · exact h3
  · intro p c hp hc hpi hci hpf hct
    exact h4 p c hp hc (by rw [hpi, hci]) hpf hct

/-- Witness for C4: a concrete run with two products, change rate `1/10`,
seed 42; the natural key `PROD-00001` occurs and has exactly one current
row. -/
theorem generate_dim_product_scd2_witness :
    ("PROD-00001" ∈ (generate_dim_product 2 (1/10) 42 ⟨0, 0, 0⟩).1.map
        (fun p => p.product_id))
    ∧ ((generate_dim_product 2 (1/10) 42 ⟨0, 0, 0⟩).1.filter
        (fun p => p.product_id == "PROD-00001" && p.is_current)).length = 1 := by
  have hfmt : fmtProductId 1 = "PROD-00001" := by
    norm_num [fmtProductId, padNum5, natChars, List.replicate, Nat.digitChar]
  have hmem : "PROD-00001" ∈ (generate_dim_product 2 (1/10) 42 ⟨0, 0, 0⟩).1.map
      (fun p => p.product_id) := by
    obtain ⟨hbid, hbcur, -, -⟩ :=
      productBlock_spec (1/10) 0 1 (seedGlobals 42 ⟨0, 0, 0⟩)
    obtain ⟨p, hp⟩ := List.length_eq_one.mp hbcur
    have hpblock : p ∈ (productBlock (1/10) 0 1 (seedGlobals 42 ⟨0, 0, 0⟩)).1 := by
      have : p ∈ (productBlock (1/10) 0 1 (seedGlobals 42 ⟨0, 0, 0⟩)).1.filter
          (fun q => q.is_current) := by
        rw [hp]; exact List.mem_singleton.mpr rfl
      exact (List.mem_filter.mp this).1
    have hrows : (generate_dim_product 2 (1/10) 42 ⟨0, 0, 0⟩).1
        = (productBlock (1/10) 0 1 (seedGlobals 42 ⟨0, 0, 0⟩)).1
          ++ (genProductAux (1/10) 1 1
                (productBlock (1/10) 0 1 (seedGlobals 42 ⟨0, 0, 0⟩)).2.1
                (productBlock (1/10) 0 1 (seedGlobals 42 ⟨0, 0, 0⟩)).2.2).1 := rfl
    rw [List.mem_map]
    refine ⟨p, ?_, by rw [hbid p hpblock, Nat.zero_add, hfmt]⟩
    rw [hrows]
    exact List.mem_append_left _ hpblock
  exact ⟨hmem,
    (generate_dim_product_scd2 2 (1/10) 42 ⟨0, 0, 0⟩ "PROD-00001" hmem).1⟩

/-! ## Sales fact generator (`generate_sales_fact`)

The generator reads only a few columns of each dimension frame; the input
row types below carry exactly those columns.  Fallible sampling operations
return `Except`: `DataFrame.sample(n=1)` on an empty frame and
`random.choices` with an empty or non-positive weight vector raise in
Python, and an exception aborts the whole call with no rows produced. -/

/-- The columns of the time dimension read by `generate_sales_fact`. -/
structure TimeRowIn where
  date : PyDate
  time_key : ℕ
deriving DecidableEq, Repr

/-- The column of the geography dimension read by `generate_sales_fact`. -/
structure GeoRowIn where
  geo_key : ℕ
deriving DecidableEq, Repr

/-- The column of the customer dimension read by `generate_sales_fact`. -/
structure CustomerRowIn where
  customer_key : ℕ
deriving DecidableEq, Repr

/-- The column of the payment dimension read by `generate_sales_fact`. -/
structure PaymentRowIn where
  payment_key : ℕ
deriving DecidableEq, Repr

/-- One line-item row of the sales fact table.  The timestamp is the
selected transaction date plus the drawn time of day. -/
structure FactRow where
  transaction_id : ℕ
  line_item_id : ℕ
  transaction_date : PyDate
  ts_hour : ℕ
  ts_minute : ℕ
  ts_second : ℕ
  time_key : ℕ
  geo_key : ℕ
  product_key : ℕ
  customer_key : ℕ
  payment_key : ℕ
  quantity : ℕ
  unit_price : ℚ
  revenue : ℚ
  cost : ℚ
  discount_amount : ℚ
  profit : ℚ
deriving DecidableEq, Repr

/-- Fallback rows for total indexing (the index is always in range). -/
def timeRowDefault : TimeRowIn := ⟨⟨1970, 1, 1⟩, 0⟩

def geoRowDefault : GeoRowIn := ⟨0⟩

def customerRowDefault : CustomerRowIn := ⟨0⟩

def paymentRowDefault : PaymentRowIn := ⟨0⟩

def productRowDefault : ProductRow :=
  ⟨0, "", "", "", "", "", 0, 0, ⟨1970, 1, 1⟩, ⟨1970, 1, 1⟩, true⟩

/-- Cumulative-weight inversion: index of the first weight whose running
total exceeds `x` (the bisect step of `random.choices` and of weighted
sampling). -/
def cumIdx (ws : List ℚ) (x : ℚ) : ℕ :=
  match ws with
  | [] => 0
  | w :: rest => if x < w then 0 else cumIdx rest (x - w) + 1

/-- `random.choices(population, weights=ws, k=1)[0]`.  CPython raises on a
length mismatch, an empty cumulative-weight list, or non-positive total
mass; otherwise it draws once from the `random` stream and inverts the
cumulative weights (result index clamped to `len - 1`). -/
def pyChoicesW {α : Type} (d : α) (l : List α) (ws : List ℚ) (g : Globals) :
    Except String (α × Globals) :=
  if l.length ≠ ws.length then .error "choices: weight length mismatch"
  else if ws = [] then .error "choices: cannot choose from an empty population"
  else if ws.sum ≤ 0 then .error "choices: total of weights must be greater than zero"
  else
    let r := pyRandom g
    .ok (l.getD (min (cumIdx ws (r.1 * ws.sum)) (ws.length - 1)) d, r.2)

/-- Weighted `DataFrame.sample(n=1, weights=ws)`: raises on an empty frame
or unusable weights; draws from the numpy global stream. -/
def npSampleW {α : Type} (d : α) (l : List α) (ws : List ℚ) (g : Globals) :
    Except String (α × Globals) :=
  if l.isEmpty then .error "sample: a larger sample than population"
  else if l.length ≠ ws.length then .error "sample: weight length mismatch"
  else if ws.sum ≤ 0 then .error "sample: invalid weights"
  else
    let v := npDraw g
    .ok (l.getD (min (cumIdx ws ((v.1 : ℚ) / 32768 * ws.sum)) (ws.length - 1)) d, v.2)

/-- Unweighted `DataFrame.sample(n=1)`: raises on an empty frame; draws from
the numpy global stream. -/
def npSampleU {α : Type} (d : α) (l : List α) (g : Globals) :
    Except String (α × Globals) :=
  if l.isEmpty then .error "sample: a larger sample than population"
  else
    let v := npDraw g
    .ok (pickFrom d l v.1, v.2)

/-- One line item: Pareto-weighted product pick, price jitter
`uniform(0.95, 1.05)`, weighted quantity, optional 5–25% discount on 20% of
line items, and the derived measures, exactly as the inner loop of
`generate_sales_fact` computes them. -/
def lineItem (products : List ProductRow) (pweights : List ℚ)
    (tid lid : ℕ) (tdate : PyDate) (th tm tsec : ℕ)
    (tkey gkey ckey paykey : ℕ) (g : Globals) : Except String (FactRow × Globals) :=
  match pyChoicesW productRowDefault products pweights g with
  | .error e => .error e
  | .ok pr =>
    let prod := pr.1
    let ju := pyUniform (19/20) (21/20) pr.2
    let unit_price := round2 (prod.unit_price * ju.1)
    match pyChoicesW (1 : ℕ) [1, 2, 3, 4, 5] [(50 : ℚ), 30, 12, 5, 3] ju.2 with
    | .error e => .error e
    | .ok qr =>
      let quantity := qr.1
      let revenue := round2 ((quantity : ℚ) * unit_price)
      let total_cost := round2 ((quantity : ℚ) * prod.unit_cost)
      let dd := pyRandom qr.2
      if dd.1 < 1/5 then
        let pp := pyUniform (1/20) (1/4) dd.2
        let discount_amount := round2 (revenue * pp.1)
        let final_revenue := round2 (revenue - discount_amount)
        let profit := round2 (final_revenue - total_cost)
        .ok (⟨tid, lid, tdate, th, tm, tsec, tkey, gkey, prod.product_key, ckey,
              paykey, quantity, unit_price, final_revenue, total_cost,
              discount_amount, profit⟩, pp.2)
      else
        let discount_amount : ℚ := 0
        let final_revenue := round2 (revenue - discount_amount)
        let profit := round2 (final_revenue - total_cost)
        .ok (⟨tid, lid, tdate, th, tm, tsec, tkey, gkey, prod.product_key, ckey,
              paykey, quantity, unit_price, final_revenue, total_cost,
              discount_amount, profit⟩, dd.2)

/-- The `for line_item_id in range(1, num_line_items + 1)` loop. -/
def genLineItems (products : List ProductRow) (pweights : List ℚ)
    (tid : ℕ) (tdate : PyDate) (th tm tsec : ℕ)
    (tkey gkey ckey paykey : ℕ) : ℕ → ℕ → Globals → Except String (List FactRow × Globals)
  | 0, _, g => .ok ([], g)
  | k + 1, lid, g =>
    match lineItem products pweights tid lid tdate th tm tsec tkey gkey ckey paykey g with
    | .error e => .error e
    | .ok rg =>
      match genLineItems products pweights tid tdate th tm tsec tkey gkey ckey paykey k (lid + 1) rg.2 with
      | .error e => .error e
      | .ok rest => .ok (rg.1 :: rest.1, rest.2)

/-- The outer `for _ in range(num_transactions)` loop: weighted date sample
(numpy stream), business-hours time of day (`random` stream), unweighted
geography and payment samples (numpy stream), Pareto-weighted customer pick
(`random` stream), weighted line-item count, then the line items. -/
def genTransactions (time_df : List TimeRowIn) (geo_df : List GeoRowIn)
    (products : List ProductRow) (customer_df : List CustomerRowIn)
    (payment_df : List PaymentRowIn) (pweights cweights : List ℚ) :
    ℕ → ℕ → Globals → Except String (List FactRow × Globals)
  | 0, _, g => .ok ([], g)
  | c + 1, tid, g =>
    match npSampleW timeRowDefault time_df (_create_recency_weights time_df.length) g with
    | .error e => .error e
    | .ok tr =>
      let hh := pyRandint 8 21 tr.2
      let mm := pyRandint 0 59 hh.2
      let ss := pyRandint 0 59 mm.2
      match npSampleU geoRowDefault geo_df ss.2 with
      | .error e => .error e
      | .ok gr =>
        match pyChoicesW customerRowDefault customer_df cweights gr.2 with
        | .error e => .error e
        | .ok cu =>
          match npSampleU paymentRowDefault payment_df cu.2 with
          | .error e => .error e
          | .ok pay =>
            match pyChoicesW (1 : ℕ) [1, 2, 3, 4, 5] [(40 : ℚ), 30, 15, 10, 5] pay.2 with
            | .error e => .error e
            | .ok nli =>
              match genLineItems products pweights tid tr.1.date hh.1 mm.1 ss.1
                  tr.1.time_key gr.1.geo_key cu.1.customer_key pay.1.payment_key
                  nli.1 1 nli.2 with
              | .error e => .error e
              | .ok lr =>
                match genTransactions time_df geo_df products customer_df payment_df
                    pweights cweights c (tid + 1) lr.2 with
                | .error e => .error e
                | .ok rest => .ok (lr.1 ++ rest.1, rest.2)

/-- `generate_sales_fact(num_transactions, …, pareto_factor, seed)`: reseeds
the `random`/`Faker` streams (not the numpy stream), filters the product
frame to current rows, builds the two Pareto weight vectors once, and runs
the transaction loop. -/
def generate_sales_fact (num_transactions : ℕ) (time_df : List TimeRowIn)
    (geo_df : List GeoRowIn) (product_df : List ProductRow)
    (customer_df : List CustomerRowIn) (payment_df : List PaymentRowIn)
    (pareto_factor : ℚ) (seed : ℕ) (g : Globals) :
    Except String (List FactRow × Globals) :=
  let g0 := seedGlobals seed g
  let current_products := product_df.filter (fun p => p.is_current)
  let pweights := _create_pareto_weights current_products.length pareto_factor
  let cweights := _create_pareto_weights customer_df.length pareto_factor
  genTransactions time_df geo_df current_products customer_df payment_df
    pweights cweights num_transactions 1 g0

/-- The measure identity of the spec for one fact row. -/
def measureOK (r : FactRow) : Prop :=
  |r.revenue - ((r.quantity : ℚ) * r.unit_price - r.discount_amount)| < 1/100
  ∧ |r.profit - (r.revenue - r.cost)| < 1/100

/-- Core arithmetic of the line-item measures: with a two-decimal unit price
and a two-decimal discount, the rounded revenue and profit satisfy the
measure identities exactly. -/
theorem measure_identity_core (q : ℕ) (up cost0 D : ℚ)
    (hup : ∃ k : ℤ, up = k / 100) (hD : ∃ k : ℤ, D = k / 100) :
    |round2 (round2 ((q : ℚ) * up) - D) - ((q : ℚ) * up - D)| < 1/100
    ∧ |round2 (round2 (round2 ((q : ℚ) * up) - D) - round2 ((q : ℚ) * cost0))
        - (round2 (round2 ((q : ℚ) * up) - D) - round2 ((q : ℚ) * cost0))| < 1/100 := by
  have h1 : round2 ((q : ℚ) * up) = (q : ℚ) * up :=
    round2_eq_self (nat_mul_centi q hup)
  have h2 : round2 ((q : ℚ) * up - D) = (q : ℚ) * up - D :=
    round2_eq_self (sub_centi (nat_mul_centi q hup) hD)
  have h3 : round2 ((q : ℚ) * up - D - round2 ((q : ℚ) * cost0))
      = (q : ℚ) * up - D - round2 ((q : ℚ) * cost0) :=
    round2_eq_self (sub_centi (sub_centi (nat_mul_centi q hup) hD) (round2_centi _))
  rw [h1, h2, h3]
  constructor <;> · rw [sub_self, abs_zero]; norm_num

theorem lineItem_measures {products : List ProductRow} {pweights : List ℚ}
    {tid lid : ℕ} {tdate : PyDate} {th tm tsec tkey gkey ckey paykey : ℕ}
    {g : Globals} {rg : FactRow × Globals}
    (h : lineItem products pweights tid lid tdate th tm tsec tkey gkey ckey paykey g
      = .ok rg) : measureOK rg.1 := by
  cases h1 : pyChoicesW productRowDefault products pweights g with
  | error e => simp only [lineItem, h1] at h; exact Except.noConfusion h
  | ok pr =>
    simp only [lineItem, h1] at h
    cases h2 : pyChoicesW (1 : ℕ) [1, 2, 3, 4, 5] [(50 : ℚ), 30, 12, 5, 3]
        (pyUniform (19/20) (21/20) pr.2).2 with
    | error e => simp only [h2] at h; exact Except.noConfusion h
    | ok qr =>
      simp only [h2] at h
      by_cases hd : (pyRandom qr.2).1 < 1/5
      · rw [if_pos hd] at h
        injection h with h'
        rw [← h']
        exact measure_identity_core qr.1 (round2 (pr.1.unit_price * (pyUniform (19/20) (21/20) pr.2).1))
          pr.1.unit_cost _ (round2_centi _) (round2_centi _)
      · rw [if_neg hd] at h
        injection h with h'
        rw [← h']
        exact measure_identity_core qr.1 (round2 (pr.1.unit_price * (pyUniform (19/20) (21/20) pr.2).1))
          pr.1.unit_cost 0 (round2_centi _) ⟨0, by norm_num⟩

theorem genLineItems_measures {products : List ProductRow} {pweights : List ℚ}
    {tid : ℕ} {tdate : PyDate} {th tm tsec tkey gkey ckey paykey : ℕ} :
    ∀ {k lid : ℕ} {g : Globals} {rg : List FactRow × Globals},
    genLineItems products pweights tid tdate th tm tsec tkey gkey ckey paykey k lid g
      = .ok rg → ∀ r ∈ rg.1, measureOK r := by
  intro k
  induction k with
  | zero =>
    intro lid g rg h r hr
    injection h with h'
    rw [← h'] at hr
    exact absurd hr (List.not_mem_nil r)
  | succ k ih =>
    intro lid g rg h r hr
    cases h1 : lineItem products pweights tid lid tdate th tm tsec tkey gkey ckey paykey g with
    | error e => simp only [genLineItems, h1] at h; exact Except.noConfusion h
    | ok one =>
      simp only [genLineItems, h1] at h
      cases h2 : genLineItems products pweights tid tdate th tm tsec tkey gkey ckey paykey
          k (lid + 1) one.2 with
      | error e => simp only [h2] at h; exact Except.noConfusion h
      | ok rest =>
        simp only [h2] at h
        injection h with h'
        rw [← h'] at hr
        rcases List.mem_cons.mp hr with rfl | hr'
        · exact lineItem_measures h1
        · exact ih h2 r hr'

theorem genTransactions_measures {time_df : List TimeRowIn} {geo_df : List GeoRowIn}
    {products : List ProductRow} {customer_df : List CustomerRowIn}
    {payment_df : List PaymentRowIn} {pweights cweights : List ℚ} :
    ∀ {c tid : ℕ} {g : Globals} {rg : List FactRow × Globals},
    genTransactions time_df geo_df products customer_df payment_df pweights cweights
      c tid g = .ok rg → ∀ r ∈ rg.1, measureOK r := by
  intro c
  induction c with
  | zero =>
    intro tid g rg h r hr
    injection h with h'
    rw [← h'] at hr
    exact absurd hr (List.not_mem_nil r)
  | succ c ih =>
    intro tid g rg h r hr
    cases h1 : npSampleW timeRowDefault time_df
        (_create_recency_weights time_df.length) g with
    | error e => simp only [genTransactions, h1] at h; exact Except.noConfusion h
    | ok tr =>
      simp only [genTransactions, h1] at h
      cases h2 : npSampleU geoRowDefault geo_df
          (pyRandint 0 59 (pyRandint 0 59 (pyRandint 8 21 tr.2).2).2).2 with
      | error e => simp only [h2] at h; exact Except.noConfusion h
      | ok gr =>
        simp only [h2] at h
        cases h3 : pyChoicesW customerRowDefault customer_df cweights gr.2 with
        | error e => simp only [h3] at h; exact Except.noConfusion h
        | ok cu =>
          simp only [h3] at h
          cases h4 : npSampleU paymentRowDefault payment_df cu.2 with
          | error e => simp only [h4] at h; exact Except.noConfusion h
          | ok pay =>
            simp only [h4] at h
            cases h5 : pyChoicesW (1 : ℕ) [1, 2, 3, 4, 5] [(40 : ℚ), 30, 15, 10, 5] pay.2 with
            | error e => simp only [h5] at h; exact Except.noConfusion h
            | ok nli =>
              simp only [h5] at h
              cases h6 : genLineItems products pweights tid tr.1.date
                  (pyRandint 8 21 tr.2).1 (pyRandint 0 59 (pyRandint 8 21 tr.2).2).1
                  (pyRandint 0 59 (pyRandint 0 59 (pyRandint 8 21 tr.2).2).2).1
                  tr.1.time_key gr.1.geo_key cu.1.customer_key pay.1.payment_key
                  nli.1 1 nli.2 with
              | error e => simp only [h6] at h; exact Except.noConfusion h
              | ok lr =>
                simp only [h6] at h
                cases h7 : genTransactions time_df geo_df products customer_df payment_df
                    pweights cweights c (tid + 1) lr.2 with
                | error e => simp only [h7] at h; exact Except.noConfusion h
                | ok rest =>
                  simp only [h7] at h
                  injection h with h'
                  rw [← h'] at hr
                  rcases List.mem_append.mp hr with hr' | hr'
                  · exact genLineItems_measures h6 r hr'
                  · exact ih h7 r hr'

/-- **C2.** Measure identity: every fact row produced by
`generate_sales_fact` satisfies
`|revenue - (quantity * unit_price - discount_amount)| < 0.01` and
`|profit - (revenue - cost)| < 0.01`. -/
theorem generate_sales_fact_measure_identity (n : ℕ) (time_df : List TimeRowIn)
    (geo_df : List GeoRowIn) (product_df : List ProductRow)
    (customer_df : List CustomerRowIn) (payment_df : List PaymentRowIn)
    (f : ℚ) (seed : ℕ) (g : Globals) (res : List FactRow × Globals)
    (h : generate_sales_fact n time_df geo_df product_df customer_df payment_df
      f seed g = .ok res) :
    ∀ r ∈ res.1,
      |r.revenue - ((r.quantity : ℚ) * r.unit_price - r.discount_amount)| < 1/100
      ∧ |r.profit - (r.revenue - r.cost)| < 1/100 := by
  intro r hr
  exact genTransactions_measures h r hr

/-- Concrete singleton inputs for the fact-generator witnesses. -/
def wProduct : ProductRow :=
  ⟨1, "P", "N", "C", "S", "B", 30, 50, ⟨2022, 1, 1⟩, farFuture, true⟩

theorem genLineItems_zero (ps : List ProductRow) (pw : List ℚ) (tid : ℕ)
    (d : PyDate) (th tm tsec tk gk ck pk lid : ℕ) (g : Globals) :
    genLineItems ps pw tid d th tm tsec tk gk ck pk 0 lid g = .ok ([], g) := rfl

theorem genLineItems_cons (ps : List ProductRow) (pw : List ℚ) (tid : ℕ)
    (d : PyDate) (th tm tsec tk gk ck pk k lid : ℕ) (g : Globals)
    (row : FactRow) (g1 : Globals) (rest : List FactRow × Globals)
    (h1 : lineItem ps pw tid lid d th tm tsec tk gk ck pk g = .ok (row, g1))
    (h2 : genLineItems ps pw tid d th tm tsec tk gk ck pk k (lid + 1) g1 = .ok rest) :
    genLineItems ps pw tid d th tm tsec tk gk ck pk (k + 1) lid g
      = .ok (row :: rest.1, rest.2) := by
  simp only [genLineItems, h1, h2]

theorem genTransactions_zero (t_df : List TimeRowIn) (geo_df : List GeoRowIn)
    (ps : List ProductRow) (cu_df : List CustomerRowIn) (pay_df : List PaymentRowIn)
    (pw cw : List ℚ) (tid : ℕ) (g : Globals) :
    genTransactions t_df geo_df ps cu_df pay_df pw cw 0 tid g = .ok ([], g) := rfl

theorem genTransactions_cons (t_df : List TimeRowIn) (geo_df : List GeoRowIn)
    (ps : List ProductRow) (cu_df : List CustomerRowIn) (pay_df : List PaymentRowIn)
    (pw cw : List ℚ) (c tid : ℕ) (g : Globals)
    (tr : TimeRowIn × Globals) (gr : GeoRowIn × Globals) (cu : CustomerRowIn × Globals)
    (pay : PaymentRowIn × Globals) (nli : ℕ × Globals) (lr rest : List FactRow × Globals)
    (h1 : npSampleW timeRowDefault t_df (_create_recency_weights t_df.length) g = .ok tr)
    (h2 : npSampleU geoRowDefault geo_df
      (pyRandint 0 59 (pyRandint 0 59 (pyRandint 8 21 tr.2).2).2).2 = .ok gr)
    (h3 : pyChoicesW customerRowDefault cu_df cw gr.2 = .ok cu)
    (h4 : npSampleU paymentRowDefault pay_df cu.2 = .ok pay)
    (h5 : pyChoicesW (1 : ℕ) [1, 2, 3, 4, 5] [(40 : ℚ), 30, 15, 10, 5] pay.2 = .ok nli)
    (h6 : genLineItems ps pw tid tr.1.date (pyRandint 8 21 tr.2).1
      (pyRandint 0 59 (pyRandint 8 21 tr.2).2).1
      (pyRandint 0 59 (pyRandint 0 59 (pyRandint 8 21 tr.2).2).2).1
      tr.1.time_key gr.1.geo_key cu.1.customer_key pay.1.payment_key nli.1 1 nli.2 = .ok lr)
    (h7 : genTransactions t_df geo_df ps cu_df pay_df pw cw c (tid + 1) lr.2 = .ok rest) :
    genTransactions t_df geo_df ps cu_df pay_df pw cw (c + 1) tid g
      = .ok (lr.1 ++ rest.1, rest.2) := by
  simp only [genTransactions, h1, h2, h3, h4, h5, h6, h7]

/-- Witness for C2: a concrete one-transaction run (singleton dimensions,
seed 42) succeeds, produces two line items, and every produced row satisfies
the measure identities. -/
theorem generate_sales_fact_measure_identity_witness :
    ∃ res : List FactRow × Globals,
      generate_sales_fact 1 [⟨⟨2023, 1, 1⟩, 20230101⟩] [⟨1⟩] [wProduct]
          [⟨1⟩] [⟨1⟩] (4/5) 42 ⟨0, 0, 0⟩ = .ok res
      ∧ res.1.length = 2
      ∧ ∀ r ∈ res.1,
          |r.revenue - ((r.quantity : ℚ) * r.unit_price - r.discount_amount)| < 1/100
          ∧ |r.profit - (r.revenue - r.cost)| < 1/100 := by
  have hpar1 : _create_pareto_weights 1 (4/5) = [4/5] := by
    norm_num [_create_pareto_weights, show List.range 1 = [0] from rfl]
  have hrec1 : _create_recency_weights 1 = [1] := by
    norm_num [_create_recency_weights, show List.range 1 = [0] from rfl]
  have ht : npSampleW timeRowDefault [⟨⟨2023, 1, 1⟩, 20230101⟩] [(1 : ℚ)] ⟨42, 0, 42⟩
      = .ok (⟨⟨2023, 1, 1⟩, 20230101⟩, ⟨42, 13849, 42⟩) := by
    norm_num [npSampleW, npDraw, rngNext, cumIdx, List.isEmpty]
  have hgeo : npSampleU geoRowDefault [(⟨1⟩ : GeoRowIn)] ⟨26841, 13849, 42⟩
      = .ok (⟨1⟩, ⟨26841, 15974, 42⟩) := by
    norm_num [npSampleU, npDraw, rngNext, pickFrom, List.isEmpty]
  have hcu : pyChoicesW customerRowDefault [(⟨1⟩ : CustomerRowIn)] [(4/5 : ℚ)]
      ⟨26841, 15974, 42⟩ = .ok (⟨1⟩, ⟨6182, 15974, 42⟩) := by
    norm_num [pyChoicesW, pyRandom, pyDraw, rngNext, cumIdx]
  have hpay : npSampleU paymentRowDefault [(⟨1⟩ : PaymentRowIn)] ⟨6182, 15974, 42⟩
      = .ok (⟨1⟩, ⟨6182, 31223, 42⟩) := by
    norm_num [npSampleU, npDraw, rngNext, pickFrom, List.isEmpty]
  have hnli : pyChoicesW (1 : ℕ) [1, 2, 3, 4, 5] [(40 : ℚ), 30, 15, 10, 5]
      ⟨6182, 31223, 42⟩ = .ok (2, ⟨18103, 31223, 42⟩) := by
    norm_num [pyChoicesW, pyRandom, pyDraw, rngNext, cumIdx]
    exact fun h => absurd h (by simp)
  have hpp1 : pyChoicesW productRowDefault [wProduct] [(4/5 : ℚ)] ⟨18103, 31223, 42⟩
      = .ok (wProduct, ⟨16092, 31223, 42⟩) := by
    norm_num [pyChoicesW, pyRandom, pyDraw, rngNext, cumIdx]
  have hju1 : (pyUniform (19/20) (21/20) ⟨16092, 31223, 42⟩).2 = ⟨19749, 31223, 42⟩ := by
    norm_num [pyUniform, pyRandom, pyDraw, rngNext]
  have hq1 : pyChoicesW (1 : ℕ) [1, 2, 3, 4, 5] [(50 : ℚ), 30, 12, 5, 3]
      ⟨19749, 31223, 42⟩ = .ok (5, ⟨32098, 31223, 42⟩) := by
    norm_num [pyChoicesW, pyRandom, pyDraw, rngNext, cumIdx]
    exact fun h => absurd h (by simp)
  have hdd1 : pyRandom ⟨32098, 31223, 42⟩ = (23459/32768, ⟨23459, 31223, 42⟩) := by
    norm_num [pyRandom, pyDraw, rngNext]
  have hli1 : ∃ row, lineItem [wProduct] [(4/5 : ℚ)] 1 1 ⟨2023, 1, 1⟩ 21 36 21
      20230101 1 1 1 ⟨18103, 31223, 42⟩ = .ok (row, ⟨23459, 31223, 42⟩) :=
    ⟨_, by
      simp only [lineItem, hpp1, hju1, hq1, hdd1]
      rw [if_neg (by norm_num)]⟩
  have hpp2 : pyChoicesW productRowDefault [wProduct] [(4/5 : ℚ)] ⟨23459, 31223, 42⟩
      = .ok (wProduct, ⟨2360, 31223, 42⟩) := by
    norm_num [pyChoicesW, pyRandom, pyDraw, rngNext, cumIdx]
  have hju2 : (pyUniform (19/20) (21/20) ⟨2360, 31223, 42⟩).2 = ⟨13745, 31223, 42⟩ := by
    norm_num [pyUniform, pyRandom, pyDraw, rngNext]
  have hq2 : pyChoicesW (1 : ℕ) [1, 2, 3, 4, 5] [(50 : ℚ), 30, 12, 5, 3]
      ⟨13745, 31223, 42⟩ = .ok (2, ⟨19422, 31223, 42⟩) := by
    norm_num [pyChoicesW, pyRandom, pyDraw, rngNext, cumIdx]
    exact fun h => absurd h (by simp)
  have hdd2 : pyRandom ⟨19422, 31223, 42⟩ = (25295/32768, ⟨25295, 31223, 42⟩) := by
    norm_num [pyRandom, pyDraw, rngNext]
  have hli2 : ∃ row, lineItem [wProduct] [(4/5 : ℚ)] 1 2 ⟨2023, 1, 1⟩ 21 36 21
      20230101 1 1 1 ⟨23459, 31223, 42⟩ = .ok (row, ⟨25295, 31223, 42⟩) :=
    ⟨_, by
      simp only [lineItem, hpp2, hju2, hq2, hdd2]
      rw [if_neg (by norm_num)]⟩
  obtain ⟨row1, h1⟩ := hli1
  obtain ⟨row2, h2⟩ := hli2
  have hli : genLineItems [wProduct] [(4/5 : ℚ)] 1 ⟨2023, 1, 1⟩ 21 36 21
      20230101 1 1 1 2 1 ⟨18103, 31223, 42⟩
      = .ok ([row1, row2], ⟨25295, 31223, 42⟩) :=
    genLineItems_cons _ _ _ _ _ _ _ _ _ _ _ 1 1 _ row1 _ _ h1
      (genLineItems_cons _ _ _ _ _ _ _ _ _ _ _ 0 2 _ row2 _ _ h2
        (genLineItems_zero _ _ _ _ _ _ _ _ _ _ _ _ _))
  have htr : genTransactions [⟨⟨2023, 1, 1⟩, 20230101⟩] [⟨1⟩] [wProduct] [⟨1⟩] [⟨1⟩]
      [(4/5 : ℚ)] [(4/5 : ℚ)] 1 1 ⟨42, 0, 42⟩
      = .ok ([row1, row2], ⟨25295, 31223, 42⟩) := by
    have hstep := genTransactions_cons [⟨⟨2023, 1, 1⟩, 20230101⟩] [⟨1⟩] [wProduct]
      [⟨1⟩] [⟨1⟩] [(4/5 : ℚ)] [(4/5 : ℚ)] 0 1 ⟨42, 0, 42⟩
      (⟨⟨2023, 1, 1⟩, 20230101⟩, ⟨42, 13849, 42⟩) (⟨1⟩, ⟨26841, 15974, 42⟩)
      (⟨1⟩, ⟨6182, 15974, 42⟩) (⟨1⟩, ⟨6182, 31223, 42⟩) (2, ⟨18103, 31223, 42⟩)
      ([row1, row2], ⟨25295, 31223, 42⟩) ([], ⟨25295, 31223, 42⟩)
      (by
        rw [show _create_recency_weights
            (List.length [(⟨⟨2023, 1, 1⟩, 20230101⟩ : TimeRowIn)]) = [(1 : ℚ)] from hrec1]
        exact ht)
      (by exact hgeo) (by exact hcu) (by exact hpay) (by exact hnli)
      (by exact hli) (genTransactions_zero _ _ _ _ _ _ _ _ _)
    simpa using hstep
  have hfil : ([wProduct].filter (fun p => p.is_current)) = [wProduct] := rfl
  have hgen : generate_sales_fact 1 [⟨⟨2023, 1, 1⟩, 20230101⟩] [⟨1⟩] [wProduct]
      [⟨1⟩] [⟨1⟩] (4/5) 42 ⟨0, 0, 0⟩ = .ok ([row1, row2], ⟨25295, 31223, 42⟩) := by
    show genTransactions [⟨⟨2023, 1, 1⟩, 20230101⟩] [⟨1⟩]
        ([wProduct].filter (fun p => p.is_current)) [⟨1⟩] [⟨1⟩]
        (_create_pareto_weights ([wProduct].filter (fun p => p.is_current)).length (4/5))
        (_create_pareto_weights (List.length [(⟨1⟩ : CustomerRowIn)]) (4/5))
        1 1 (seedGlobals 42 ⟨0, 0, 0⟩) = _
    rw [hfil]
    show genTransactions _ _ _ _ _
        (_create_pareto_weights 1 (4/5)) (_create_pareto_weights 1 (4/5)) 1 1 _ = _
    rw [hpar1]
    show genTransactions _ _ _ _ _ _ _ 1 1 ⟨42, 0, 42⟩ = _
    exact htr
  exact ⟨([row1, row2], ⟨25295, 31223, 42⟩), hgen, rfl,
    generate_sales_fact_measure_identity 1 _ _ _ _ _ (4/5) 42 ⟨0, 0, 0⟩ _ hgen⟩

theorem npSampleW_nil {α : Type} (d : α) (ws : List ℚ) (g : Globals) :
    npSampleW d ([] : List α) ws g = .error "sample: a larger sample than population" := rfl

theorem npSampleU_nil {α : Type} (d : α) (g : Globals) :
    npSampleU d ([] : List α) g = .error "sample: a larger sample than population" := rfl

theorem pyChoicesW_nil {α : Type} (d : α) (ws : List ℚ) (g : Globals) :
    ∃ e, pyChoicesW d ([] : List α) ws g = .error e := by
  cases ws with
  | nil => exact ⟨_, rfl⟩
  | cons w ws => exact ⟨"choices: weight length mismatch", by simp [pyChoicesW]⟩

theorem pyChoicesW_ok_mem {α : Type} {d : α} {l : List α} {ws : List ℚ}
    {g : Globals} {r : α × Globals} (h : pyChoicesW d l ws g = .ok r) : r.1 ∈ l := by
  unfold pyChoicesW at h
  split at h
  · exact Except.noConfusion h
  · split at h
    · exact Except.noConfusion h
    · split at h
      · exact Except.noConfusion h
      · rename_i hlen hws hsum
        injection h with h'
        have hwpos : 0 < ws.length := List.length_pos.mpr hws
        have hidx : min (cumIdx ws ((pyRandom g).1 * ws.sum)) (ws.length - 1) < l.length := by
          have : ws.length - 1 < ws.length := by omega
          have hll : l.length = ws.length := by omega
          omega
        rw [← h']
        rw [List.getD_eq_getElem l d hidx]
        exact List.getElem_mem hidx

theorem genTransactions_empty_error (t_df : List TimeRowIn) (geo_df : List GeoRowIn)
    (ps : List ProductRow) (cu_df : List CustomerRowIn) (pay_df : List PaymentRowIn)
    (pw cw : List ℚ) (c tid : ℕ) (g : Globals)
    (hempty : t_df = [] ∨ geo_df = [] ∨ ps = [] ∨ cu_df = [] ∨ pay_df = []) :
    ∃ e, genTransactions t_df geo_df ps cu_df pay_df pw cw (c + 1) tid g = .error e := by
  rcases hempty with rfl | rfl | rfl | rfl | rfl
  · exact ⟨"sample: a larger sample than population",
      by simp only [genTransactions, List.length_nil, npSampleW_nil]⟩
  · cases h1 : npSampleW timeRowDefault t_df (_create_recency_weights t_df.length) g with
    | error e => exact ⟨e, by simp only [genTransactions, h1]⟩
    | ok tr => exact ⟨"sample: a larger sample than population",
        by simp only [genTransactions, h1, npSampleU_nil]⟩
  · cases h1 : npSampleW timeRowDefault t_df (_create_recency_weights t_df.length) g with
    | error e => exact ⟨e, by simp only [genTransactions, h1]⟩
    | ok tr =>
      cases h2 : npSampleU geoRowDefault geo_df
          (pyRandint 0 59 (pyRandint 0 59 (pyRandint 8 21 tr.2).2).2).2 with
      | error e => exact ⟨e, by simp only [genTransactions, h1, h2]⟩
      | ok gr =>
        cases h3 : pyChoicesW customerRowDefault cu_df cw gr.2 with
        | error e => exact ⟨e, by simp only [genTransactions, h1, h2, h3]⟩
        | ok cu =>
          cases h4 : npSampleU paymentRowDefault pay_df cu.2 with
          | error e => exact ⟨e, by simp only [genTransactions, h1, h2, h3, h4]⟩
          | ok pay =>
            cases h5 : pyChoicesW (1 : ℕ) [1, 2, 3, 4, 5] [(40 : ℚ), 30, 15, 10, 5] pay.2 with
            | error e => exact ⟨e, by simp only [genTransactions, h1, h2, h3, h4, h5]⟩
            | ok nli =>
              obtain ⟨k, hk⟩ : ∃ k, nli.1 = k + 1 := by
                have hmem := pyChoicesW_ok_mem h5
                simp only [List.mem_cons, List.not_mem_nil, or_false] at hmem
                rcases hmem with h | h | h | h | h
                exacts [⟨0, by omega⟩, ⟨1, by omega⟩, ⟨2, by omega⟩, ⟨3, by omega⟩,
                  ⟨4, by omega⟩]
              obtain ⟨e2, he2⟩ := pyChoicesW_nil productRowDefault pw nli.2
              have hline : lineItem [] pw tid 1 tr.1.date (pyRandint 8 21 tr.2).1
                  (pyRandint 0 59 (pyRandint 8 21 tr.2).2).1
                  (pyRandint 0 59 (pyRandint 0 59 (pyRandint 8 21 tr.2).2).2).1
                  tr.1.time_key gr.1.geo_key cu.1.customer_key pay.1.payment_key nli.2
                  = .error e2 := by
                simp only [lineItem, he2]
              have hitems : genLineItems [] pw tid tr.1.date (pyRandint 8 21 tr.2).1
                  (pyRandint 0 59 (pyRandint 8 21 tr.2).2).1
                  (pyRandint 0 59 (pyRandint 0 59 (pyRandint 8 21 tr.2).2).2).1
                  tr.1.time_key gr.1.geo_key cu.1.customer_key pay.1.payment_key
                  nli.1 1 nli.2 = .error e2 := by
                rw [hk]
                simp only [genLineItems, hline]
              exact ⟨e2, by simp only [genTransactions, h1, h2, h3, h4, h5, hitems]⟩
  · cases h1 : npSampleW timeRowDefault t_df (_create_recency_weights t_df.length) g with
    | error e => exact ⟨e, by simp only [genTransactions, h1]⟩
    | ok tr =>
      cases h2 : npSampleU geoRowDefault geo_df
          (pyRandint 0 59 (pyRandint 0 59 (pyRandint 8 21 tr.2).2).2).2 with
      | error e => exact ⟨e, by simp only [genTransactions, h1, h2]⟩
      | ok gr =>
        obtain ⟨e3, he3⟩ := pyChoicesW_nil customerRowDefault cw gr.2
        exact ⟨e3, by simp only [genTransactions, h1, h2, he3]⟩
  · cases h1 : npSampleW timeRowDefault t_df (_create_recency_weights t_df.length) g with
    | error e => exact ⟨e, by simp only [genTransactions, h1]⟩
    | ok tr =>
      cases h2 : npSampleU geoRowDefault geo_df
          (pyRandint 0 59 (pyRandint 0 59 (pyRandint 8 21 tr.2).2).2).2 with
      | error e => exact ⟨e, by simp only [genTransactions, h1, h2]⟩
      | ok gr =>
        cases h3 : pyChoicesW customerRowDefault cu_df cw gr.2 with
        | error e => exact ⟨e, by simp only [genTransactions, h1, h2, h3]⟩
        | ok cu => exact ⟨"sample: a larger sample than population",
            by simp only [genTransactions, h1, h2, h3, npSampleU_nil]⟩

/-- **C8.** Fail-fast on empty dimensions: for `num_transactions ≥ 1`, if any
of the five dimension inputs to `generate_sales_fact` is empty, the call
raises (the `Except` result is an error, carrying no rows); it never
silently returns zero fact rows. -/
theorem generate_sales_fact_empty_dim_errors (n : ℕ) (hn : 1 ≤ n)
    (time_df : List TimeRowIn) (geo_df : List GeoRowIn) (product_df : List ProductRow)
    (customer_df : List CustomerRowIn) (payment_df : List PaymentRowIn)
    (f : ℚ) (seed : ℕ) (g : Globals)
    (hempty : time_df = [] ∨ geo_df = [] ∨ product_df = [] ∨ customer_df = []
      ∨ payment_df = []) :
    ∃ e, generate_sales_fact n time_df geo_df product_df customer_df payment_df
      f seed g = .error e := by
  obtain ⟨c, rfl⟩ : ∃ c, n = c + 1 := ⟨n - 1, by omega⟩
  have hempty2 : time_df = [] ∨ geo_df = []
      ∨ product_df.filter (fun p => p.is_current) = [] ∨ customer_df = []
      ∨ payment_df = [] := by
    rcases hempty with h | h | h | h | h
    · exact Or.inl h
    · exact Or.inr (Or.inl h)
    · exact Or.inr (Or.inr (Or.inl (by rw [h]; rfl)))
    · exact Or.inr (Or.inr (Or.inr (Or.inl h)))
    · exact Or.inr (Or.inr (Or.inr (Or.inr h)))
  obtain ⟨e, he⟩ := genTransactions_empty_error time_df geo_df
    (product_df.filter (fun p => p.is_current)) customer_df payment_df
    (_create_pareto_weights (product_df.filter (fun p => p.is_current)).length f)
    (_create_pareto_weights customer_df.length f) c 1 (seedGlobals seed g) hempty2
  exact ⟨e, he⟩

/-- Witness for C8: one transaction requested with an empty time dimension
(and non-empty remaining dimensions) errors out. -/
theorem generate_sales_fact_empty_dim_errors_witness :
    ∃ e, generate_sales_fact 1 [] [⟨1⟩] [wProduct] [⟨1⟩] [⟨1⟩] (4/5) 42 ⟨0, 0, 0⟩
      = .error e :=
  generate_sales_fact_empty_dim_errors 1 (by norm_num) [] [⟨1⟩] [wProduct] [⟨1⟩] [⟨1⟩]
    (4/5) 42 ⟨0, 0, 0⟩ (Or.inl rfl)

theorem lineItem_ok_time_key {products : List ProductRow} {pweights : List ℚ}
    {tid lid : ℕ} {tdate : PyDate} {th tm tsec tkey gkey ckey paykey : ℕ}
    {g : Globals} {rg : FactRow × Globals}
    (h : lineItem products pweights tid lid tdate th tm tsec tkey gkey ckey paykey g
      = .ok rg) : rg.1.time_key = tkey := by
  cases h1 : pyChoicesW productRowDefault products pweights g with
  | error e => simp only [lineItem, h1] at h; exact Except.noConfusion h
  | ok pr =>
    simp only [lineItem, h1] at h
    cases h2 : pyChoicesW (1 : ℕ) [1, 2, 3, 4, 5] [(50 : ℚ), 30, 12, 5, 3]
        (pyUniform (19/20) (21/20) pr.2).2 with
    | error e => simp only [h2] at h; exact Except.noConfusion h
    | ok qr =>
      simp only [h2] at h
      by_cases hd : (pyRandom qr.2).1 < 1/5
      · rw [if_pos hd] at h
        injection h with h'
        rw [← h']
      · rw [if_neg hd] at h
        injection h with h'
        rw [← h']

/-- **C7 (code bug).** Regenerating with the same seed and identical
arguments is not reproducible for `generate_sales_fact`: `DataGenerator`
seeds only the `random`/`Faker` streams while `DataFrame.sample` draws from
the never-reseeded numpy global stream, so the second of two identical calls
selects different time rows.  Here the first run sells on the time row with
`time_key = 2` and the repeated identical call on `time_key = 3`. -/
theorem generate_sales_fact_not_seed_reproducible :
    ∃ res1 res2 : List FactRow × Globals,
      generate_sales_fact 1 [⟨⟨2023, 1, 1⟩, 1⟩, ⟨⟨2023, 2, 1⟩, 2⟩, ⟨⟨2023, 3, 1⟩, 3⟩]
          [⟨1⟩] [wProduct] [⟨1⟩] [⟨1⟩] (4/5) 42 ⟨0, 0, 0⟩ = .ok res1
      ∧ generate_sales_fact 1 [⟨⟨2023, 1, 1⟩, 1⟩, ⟨⟨2023, 2, 1⟩, 2⟩, ⟨⟨2023, 3, 1⟩, 3⟩]
          [⟨1⟩] [wProduct] [⟨1⟩] [⟨1⟩] (4/5) 42 res1.2 = .ok res2
      ∧ res1.1.map (fun r => r.time_key) = [2, 2]
      ∧ res2.1.map (fun r => r.time_key) = [3, 3]
      ∧ res1.1 ≠ res2.1 := by
  have hpar1 : _create_pareto_weights 1 (4/5) = [4/5] := by
    norm_num [_create_pareto_weights, show List.range 1 = [0] from rfl]
  have hrec3 : _create_recency_weights 3 = [1, 2, 3] := by
    norm_num [_create_recency_weights, show List.range 3 = [0, 1, 2] from rfl]
  have htA : npSampleW timeRowDefault
      [⟨⟨2023, 1, 1⟩, 1⟩, ⟨⟨2023, 2, 1⟩, 2⟩, ⟨⟨2023, 3, 1⟩, 3⟩] [(1 : ℚ), 2, 3]
      ⟨42, 0, 42⟩ = .ok (⟨⟨2023, 2, 1⟩, 2⟩, ⟨42, 13849, 42⟩) := by
    norm_num [npSampleW, npDraw, rngNext, cumIdx, List.isEmpty]
  have hgeoA : npSampleU geoRowDefault [(⟨1⟩ : GeoRowIn)] ⟨26841, 13849, 42⟩
      = .ok (⟨1⟩, ⟨26841, 15974, 42⟩) := by
    norm_num [npSampleU, npDraw, rngNext, pickFrom, List.isEmpty]
  have hcuA : pyChoicesW customerRowDefault [(⟨1⟩ : CustomerRowIn)] [(4/5 : ℚ)]
      ⟨26841, 15974, 42⟩ = .ok (⟨1⟩, ⟨6182, 15974, 42⟩) := by
    norm_num [pyChoicesW, pyRandom, pyDraw, rngNext, cumIdx]
  have hpayA : npSampleU paymentRowDefault [(⟨1⟩ : PaymentRowIn)] ⟨6182, 15974, 42⟩
      = .ok (⟨1⟩, ⟨6182, 31223, 42⟩) := by
    norm_num [npSampleU, npDraw, rngNext, pickFrom, List.isEmpty]
  have hnliA : pyChoicesW (1 : ℕ) [1, 2, 3, 4, 5] [(40 : ℚ), 30, 15, 10, 5]
      ⟨6182, 31223, 42⟩ = .ok (2, ⟨18103, 31223, 42⟩) := by
    norm_num [pyChoicesW, pyRandom, pyDraw, rngNext, cumIdx]
    exact fun h => absurd h (by simp)
  have hppA1 : pyChoicesW productRowDefault [wProduct] [(4/5 : ℚ)] ⟨18103, 31223, 42⟩
      = .ok (wProduct, ⟨16092, 31223, 42⟩) := by
    norm_num [pyChoicesW, pyRandom, pyDraw, rngNext, cumIdx]
  have hjuA1 : (pyUniform (19/20) (21/20) ⟨16092, 31223, 42⟩).2 = ⟨19749, 31223, 42⟩ := by
    norm_num [pyUniform, pyRandom, pyDraw, rngNext]
  have hqA1 : pyChoicesW (1 : ℕ) [1, 2, 3, 4, 5] [(50 : ℚ), 30, 12, 5, 3]
      ⟨19749, 31223, 42⟩ = .ok (5, ⟨32098, 31223, 42⟩) := by
    norm_num [pyChoicesW, pyRandom, pyDraw, rngNext, cumIdx]
    exact fun h => absurd h (by simp)
  have hddA1 : pyRandom ⟨32098, 31223, 42⟩ = (23459/32768, ⟨23459, 31223, 42⟩) := by
    norm_num [pyRandom, pyDraw, rngNext]
  have hliA1 : ∃ row, lineItem [wProduct] [(4/5 : ℚ)] 1 1 ⟨2023, 2, 1⟩ 21 36 21
      2 1 1 1 ⟨18103, 31223, 42⟩ = .ok (row, ⟨23459, 31223, 42⟩) :=
    ⟨_, by
      simp only [lineItem, hppA1, hjuA1, hqA1, hddA1]
      rw [if_neg (by norm_num)]⟩
  have hppA2 : pyChoicesW productRowDefault [wProduct] [(4/5 : ℚ)] ⟨23459, 31223, 42⟩
      = .ok (wProduct, ⟨2360, 31223, 42⟩) := by
    norm_num [pyChoicesW, pyRandom, pyDraw, rngNext, cumIdx]
  have hjuA2 : (pyUniform (19/20) (21/20) ⟨2360, 31223, 42⟩).2 = ⟨13745, 31223, 42⟩ := by
    norm_num [pyUniform, pyRandom, pyDraw, rngNext]
  have hqA2 : pyChoicesW (1 : ℕ) [1, 2, 3, 4, 5] [(50 : ℚ), 30, 12, 5, 3]
      ⟨13745, 31223, 42⟩ = .ok (2, ⟨19422, 31223, 42⟩) := by
    norm_num [pyChoicesW, pyRandom, pyDraw, rngNext, cumIdx]
    exact fun h => absurd h (by simp)
  have hddA2 : pyRandom ⟨19422, 31223, 42⟩ = (25295/32768, ⟨25295, 31223, 42⟩) := by
    norm_num [pyRandom, pyDraw, rngNext]
  have hliA2 : ∃ row, lineItem [wProduct] [(4/5 : ℚ)] 1 2 ⟨2023, 2, 1⟩ 21 36 21
      2 1 1 1 ⟨23459, 31223, 42⟩ = .ok (row, ⟨25295, 31223, 42⟩) :=
    ⟨_, by
      simp only [lineItem, hppA2, hjuA2, hqA2, hddA2]
      rw [if_neg (by norm_num)]⟩
  have htB : npSampleW timeRowDefault
      [⟨⟨2023, 1, 1⟩, 1⟩, ⟨⟨2023, 2, 1⟩, 2⟩, ⟨⟨2023, 3, 1⟩, 3⟩] [(1 : ℚ), 2, 3]
      ⟨42, 31223, 42⟩ = .ok (⟨⟨2023, 3, 1⟩, 3⟩, ⟨42, 17180, 42⟩) := by
    norm_num [npSampleW, npDraw, rngNext, cumIdx, List.isEmpty]
  have hgeoB : npSampleU geoRowDefault [(⟨1⟩ : GeoRowIn)] ⟨26841, 17180, 42⟩
      = .ok (⟨1⟩, ⟨26841, 13925, 42⟩) := by
    norm_num [npSampleU, npDraw, rngNext, pickFrom, List.isEmpty]
  have hcuB : pyChoicesW customerRowDefault [(⟨1⟩ : CustomerRowIn)] [(4/5 : ℚ)]
      ⟨26841, 13925, 42⟩ = .ok (⟨1⟩, ⟨6182, 13925, 42⟩) := by
    norm_num [pyChoicesW, pyRandom, pyDraw, rngNext, cumIdx]
  have hpayB : npSampleU paymentRowDefault [(⟨1⟩ : PaymentRowIn)] ⟨6182, 13925, 42⟩
      = .ok (⟨1⟩, ⟨6182, 28578, 42⟩) := by
    norm_num [npSampleU, npDraw, rngNext, pickFrom, List.isEmpty]
  have hnliB : pyChoicesW (1 : ℕ) [1, 2, 3, 4, 5] [(40 : ℚ), 30, 15, 10, 5]
      ⟨6182, 28578, 42⟩ = .ok (2, ⟨18103, 28578, 42⟩) := by
    norm_num [pyChoicesW, pyRandom, pyDraw, rngNext, cumIdx]
    exact fun h => absurd h (by simp)
  have hppB1 : pyChoicesW productRowDefault [wProduct] [(4/5 : ℚ)] ⟨18103, 28578, 42⟩
      = .ok (wProduct, ⟨16092, 28578, 42⟩) := by
    norm_num [pyChoicesW, pyRandom, pyDraw, rngNext, cumIdx]
  have hjuB1 : (pyUniform (19/20) (21/20) ⟨16092, 28578, 42⟩).2 = ⟨19749, 28578, 42⟩ := by
    norm_num [pyUniform, pyRandom, pyDraw, rngNext]
  have hqB1 : pyChoicesW (1 : ℕ) [1, 2, 3, 4, 5] [(50 : ℚ), 30, 12, 5, 3]
      ⟨19749, 28578, 42⟩ = .ok (5, ⟨32098, 28578, 42⟩) := by
    norm_num [pyChoicesW, pyRandom, pyDraw, rngNext, cumIdx]
    exact fun h => absurd h (by simp)
  have hddB1 : pyRandom ⟨32098, 28578, 42⟩ = (23459/32768, ⟨23459, 28578, 42⟩) := by
    norm_num [pyRandom, pyDraw, rngNext]
  have hliB1 : ∃ row, lineItem [wProduct] [(4/5 : ℚ)] 1 1 ⟨2023, 3, 1⟩ 21 36 21
      3 1 1 1 ⟨18103, 28578, 42⟩ = .ok (row, ⟨23459, 28578, 42⟩) :=
    ⟨_, by
      simp only [lineItem, hppB1, hjuB1, hqB1, hddB1]
      rw [if_neg (by norm_num)]⟩
  have hppB2 : pyChoicesW productRowDefault [wProduct] [(4/5 : ℚ)] ⟨23459, 28578, 42⟩
      = .ok (wProduct, ⟨2360, 28578, 42⟩) := by
    norm_num [pyChoicesW, pyRandom, pyDraw, rngNext, cumIdx]
  have hjuB2 : (pyUniform (19/20) (21/20) ⟨2360, 28578, 42⟩).2 = ⟨13745, 28578, 42⟩ := by
    norm_num [pyUniform, pyRandom, pyDraw, rngNext]
  have hqB2 : pyChoicesW (1 : ℕ) [1, 2, 3, 4, 5] [(50 : ℚ), 30, 12, 5, 3]
      ⟨13745, 28578, 42⟩ = .ok (2, ⟨19422, 28578, 42⟩) := by
    norm_num [pyChoicesW, pyRandom, pyDraw, rngNext, cumIdx]
    exact fun h => absurd h (by simp)
  have hddB2 : pyRandom ⟨19422, 28578, 42⟩ = (25295/32768, ⟨25295, 28578, 42⟩) := by
    norm_num [pyRandom, pyDraw, rngNext]
  have hliB2 : ∃ row, lineItem [wProduct] [(4/5 : ℚ)] 1 2 ⟨2023, 3, 1⟩ 21 36 21
      3 1 1 1 ⟨23459, 28578, 42⟩ = .ok (row, ⟨25295, 28578, 42⟩) :=
    ⟨_, by
      simp only [lineItem, hppB2, hjuB2, hqB2, hddB2]
      rw [if_neg (by norm_num)]⟩
  obtain ⟨rowA1, hA1⟩ := hliA1
  obtain ⟨rowA2, hA2⟩ := hliA2
  obtain ⟨rowB1, hB1⟩ := hliB1
  obtain ⟨rowB2, hB2⟩ := hliB2
  have hliA : genLineItems [wProduct] [(4/5 : ℚ)] 1 ⟨2023, 2, 1⟩ 21 36 21
      2 1 1 1 2 1 ⟨18103, 31223, 42⟩ = .ok ([rowA1, rowA2], ⟨25295, 31223, 42⟩) :=
    genLineItems_cons _ _ _ _ _ _ _ _ _ _ _ 1 1 _ rowA1 _ _ hA1
      (genLineItems_cons _ _ _ _ _ _ _ _ _ _ _ 0 2 _ rowA2 _ _ hA2
        (genLineItems_zero _ _ _ _ _ _ _ _ _ _ _ _ _))
  have hliB : genLineItems [wProduct] [(4/5 : ℚ)] 1 ⟨2023, 3, 1⟩ 21 36 21
      3 1 1 1 2 1 ⟨18103, 28578, 42⟩ = .ok ([rowB1, rowB2], ⟨25295, 28578, 42⟩) :=
    genLineItems_cons _ _ _ _ _ _ _ _ _ _ _ 1 1 _ rowB1 _ _ hB1
      (genLineItems_cons _ _ _ _ _ _ _ _ _ _ _ 0 2 _ rowB2 _ _ hB2
        (genLineItems_zero _ _ _ _ _ _ _ _ _ _ _ _ _))
  have htrA : genTransactions
      [⟨⟨2023, 1, 1⟩, 1⟩, ⟨⟨2023, 2, 1⟩, 2⟩, ⟨⟨2023, 3, 1⟩, 3⟩] [⟨1⟩] [wProduct]
      [⟨1⟩] [⟨1⟩] [(4/5 : ℚ)] [(4/5 : ℚ)] 1 1 ⟨42, 0, 42⟩
      = .ok ([rowA1, rowA2], ⟨25295, 31223, 42⟩) := by
    have hstep := genTransactions_cons
      [⟨⟨2023, 1, 1⟩, 1⟩, ⟨⟨2023, 2, 1⟩, 2⟩, ⟨⟨2023, 3, 1⟩, 3⟩] [⟨1⟩] [wProduct]
      [⟨1⟩] [⟨1⟩] [(4/5 : ℚ)] [(4/5 : ℚ)] 0 1 ⟨42, 0, 42⟩
      (⟨⟨2023, 2, 1⟩, 2⟩, ⟨42, 13849, 42⟩) (⟨1⟩, ⟨26841, 15974, 42⟩)
      (⟨1⟩, ⟨6182, 15974, 42⟩) (⟨1⟩, ⟨6182, 31223, 42⟩) (2, ⟨18103, 31223, 42⟩)
      ([rowA1, rowA2], ⟨25295, 31223, 42⟩) ([], ⟨25295, 31223, 42⟩)
      (by
        rw [show _create_recency_weights (List.length
            [(⟨⟨2023, 1, 1⟩, 1⟩ : TimeRowIn), ⟨⟨2023, 2, 1⟩, 2⟩, ⟨⟨2023, 3, 1⟩, 3⟩])
            = [(1 : ℚ), 2, 3] from hrec3]
        exact htA)
      (by exact hgeoA) (by exact hcuA) (by exact hpayA) (by exact hnliA)
      (by exact hliA) (genTransactions_zero _ _ _ _ _ _ _ _ _)
    simpa using hstep
  have htrB : genTransactions
      [⟨⟨2023, 1, 1⟩, 1⟩, ⟨⟨2023, 2, 1⟩, 2⟩, ⟨⟨2023, 3, 1⟩, 3⟩] [⟨1⟩] [wProduct]
      [⟨1⟩] [⟨1⟩] [(4/5 : ℚ)] [(4/5 : ℚ)] 1 1 ⟨42, 31223, 42⟩
      = .ok ([rowB1, rowB2], ⟨25295, 28578, 42⟩) := by
    have hstep := genTransactions_cons
      [⟨⟨2023, 1, 1⟩, 1⟩, ⟨⟨2023, 2, 1⟩, 2⟩, ⟨⟨2023, 3, 1⟩, 3⟩] [⟨1⟩] [wProduct]
      [⟨1⟩] [⟨1⟩] [(4/5 : ℚ)] [(4/5 : ℚ)] 0 1 ⟨42, 31223, 42⟩
      (⟨⟨2023, 3, 1⟩, 3⟩, ⟨42, 17180, 42⟩) (⟨1⟩, ⟨26841, 13925, 42⟩)
      (⟨1⟩, ⟨6182, 13925, 42⟩) (⟨1⟩, ⟨6182, 28578, 42⟩) (2, ⟨18103, 28578, 42⟩)
      ([rowB1, rowB2], ⟨25295, 28578, 42⟩) ([], ⟨25295, 28578, 42⟩)
      (by
        rw [show _create_recency_weights (List.length
            [(⟨⟨2023, 1, 1⟩, 1⟩ : TimeRowIn), ⟨⟨2023, 2, 1⟩, 2⟩, ⟨⟨2023, 3, 1⟩, 3⟩])
            = [(1 : ℚ), 2, 3] from hrec3]
        exact htB)
      (by exact hgeoB) (by exact hcuB) (by exact hpayB) (by exact hnliB)
      (by exact hliB) (genTransactions_zero _ _ _ _ _ _ _ _ _)
    simpa using hstep
  have hfil : ([wProduct].filter (fun p => p.is_current)) = [wProduct] := rfl
  have hgenA : generate_sales_fact 1
      [⟨⟨2023, 1, 1⟩, 1⟩, ⟨⟨2023, 2, 1⟩, 2⟩, ⟨⟨2023, 3, 1⟩, 3⟩] [⟨1⟩] [wProduct]
      [⟨1⟩] [⟨1⟩] (4/5) 42 ⟨0, 0, 0⟩ = .ok ([rowA1, rowA2], ⟨25295, 31223, 42⟩) := by
    show genTransactions [⟨⟨2023, 1, 1⟩, 1⟩, ⟨⟨2023, 2, 1⟩, 2⟩, ⟨⟨2023, 3, 1⟩, 3⟩]
        [⟨1⟩] ([wProduct].filter (fun p => p.is_current)) [⟨1⟩] [⟨1⟩]
        (_create_pareto_weights ([wProduct].filter (fun p => p.is_current)).length (4/5))
        (_create_pareto_weights (List.length [(⟨1⟩ : CustomerRowIn)]) (4/5))
        1 1 (seedGlobals 42 ⟨0, 0, 0⟩) = _
    rw [hfil]
    show genTransactions _ _ _ _ _
        (_create_pareto_weights 1 (4/5)) (_create_pareto_weights 1 (4/5)) 1 1 _ = _
    rw [hpar1]
    show genTransactions _ _ _ _ _ _ _ 1 1 ⟨42, 0, 42⟩ = _
    exact htrA
  have hgenB : generate_sales_fact 1
      [⟨⟨2023, 1, 1⟩, 1⟩, ⟨⟨2023, 2, 1⟩, 2⟩, ⟨⟨2023, 3, 1⟩, 3⟩] [⟨1⟩] [wProduct]
      [⟨1⟩] [⟨1⟩] (4/5) 42 ⟨25295, 31223, 42⟩
      = .ok ([rowB1, rowB2], ⟨25295, 28578, 42⟩) := by
    show genTransactions [⟨⟨2023, 1, 1⟩, 1⟩, ⟨⟨2023, 2, 1⟩, 2⟩, ⟨⟨2023, 3, 1⟩, 3⟩]
        [⟨1⟩] ([wProduct].filter (fun p => p.is_current)) [⟨1⟩] [⟨1⟩]
        (_create_pareto_weights ([wProduct].filter (fun p => p.is_current)).length (4/5))
        (_create_pareto_weights (List.length [(⟨1⟩ : CustomerRowIn)]) (4/5))
        1 1 (seedGlobals 42 ⟨25295, 31223, 42⟩) = _
    rw [hfil]
    show genTransactions _ _ _ _ _
        (_create_pareto_weights 1 (4/5)) (_create_pareto_weights 1 (4/5)) 1 1 _ = _
    rw [hpar1]
    show genTransactions _ _ _ _ _ _ _ 1 1 ⟨42, 31223, 42⟩ = _
    exact htrB
  have hkA1 : rowA1.time_key = 2 := lineItem_ok_time_key hA1
  have hkA2 : rowA2.time_key = 2 := lineItem_ok_time_key hA2
  have hkB1 : rowB1.time_key = 3 := lineItem_ok_time_key hB1
  have hkB2 : rowB2.time_key = 3 := lineItem_ok_time_key hB2
  have hmapA : [rowA1, rowA2].map (fun r => r.time_key) = [2, 2] := by
    simp only [List.map_cons, List.map_nil, hkA1, hkA2]
  have hmapB : [rowB1, rowB2].map (fun r => r.time_key) = [3, 3] := by
    simp only [List.map_cons, List.map_nil, hkB1, hkB2]
  refine ⟨([rowA1, rowA2], ⟨25295, 31223, 42⟩), ([rowB1, rowB2], ⟨25295, 28578, 42⟩),
    hgenA, hgenB, ?_, ?_, ?_⟩
  · exact hmapA
  · exact hmapB
  · show [rowA1, rowA2] ≠ [rowB1, rowB2]
    intro hcontra
    rw [hcontra, hmapB] at hmapA
    exact absurd hmapA (by decide)

/-! ## Validators (`datagen/schemas.py`)

A pandas DataFrame is modelled as its typed rows plus a list of extra named
columns; `df[name] = values` either overwrites the column or appends it.
Each validator returns its result together with the post-state of its input
frame, so the frame effect of the Python code (which assigns scratch
columns into the caller's frame) is visible. -/

/-- `df[name] = vals` on the extra columns: overwrite or append. -/
def setCol {α : Type} (extra : List (String × List α)) (name : String)
    (vals : List α) : List (String × List α) :=
  if (extra.find? (fun p => p.1 == name)).isSome then
    extra.map (fun p => if p.1 == name then (name, vals) else p)
  else extra ++ [(name, vals)]

theorem mem_names_setCol {α : Type} {extra : List (String × List α)}
    {name c : String} {vals : List α}
    (h : c ∈ (setCol extra name vals).map Prod.fst) :
    c ∈ extra.map Prod.fst ∨ c = name := by
  unfold setCol at h
  split at h
  · rw [List.map_map, List.mem_map] at h
    obtain ⟨p, hp, hc⟩ := h
    by_cases hn : p.1 == name
    · right
      simp only [Function.comp, hn, if_pos] at hc
      exact hc.symm
    · left
      simp only [Function.comp, hn, if_neg, Bool.false_eq_true, not_false_iff] at hc
      rw [List.mem_map]
      exact ⟨p, hp, hc⟩
  · rw [List.map_append, List.mem_append] at h
    rcases h with h | h
    · exact Or.inl h
    · right
      simp only [List.map_cons, List.map_nil, List.mem_singleton] at h
      exact h

/-- A sales-fact frame: typed rows plus scratch columns. -/
structure FactDf where
  rows : List FactRow
  extra : List (String × List ℚ)
deriving DecidableEq, Repr

/-- `schemas.validate_fact_measures`: checks `revenue ≈ quantity * unit_price`
(the source does not subtract the discount) and `profit ≈ revenue - cost`,
then non-negativity; assigns the scratch columns `expected_revenue` /
`expected_profit` into the input frame before each comparison.  The
`quantity < 0` check of the source cannot fire here because the quantity
column is a natural number. -/
def validate_fact_measures (df : FactDf) : Except String Bool × FactDf :=
  let post1 : FactDf :=
    ⟨df.rows, setCol df.extra "expected_revenue"
      (df.rows.map (fun r => (r.quantity : ℚ) * r.unit_price))⟩
  let revenue_errors := df.rows.filter
    (fun r => decide (|r.revenue - (r.quantity : ℚ) * r.unit_price| > 1/100))
  if revenue_errors ≠ [] then
    (.error "records with incorrect revenue calculation", post1)
  else
    let post2 : FactDf :=
      ⟨post1.rows, setCol post1.extra "expected_profit"
        (df.rows.map (fun r => r.revenue - r.cost))⟩
    let profit_errors := df.rows.filter
      (fun r => decide (|r.profit - (r.revenue - r.cost)| > 1/100))
    if profit_errors ≠ [] then
      (.error "records with incorrect profit calculation", post2)
    else if df.rows.any (fun r => decide (r.unit_price < 0)) then
      (.error "negative unit_price values", post2)
    else if df.rows.any (fun r => decide (r.revenue < 0)) then
      (.error "negative revenue values", post2)
    else if df.rows.any (fun r => decide (r.cost < 0)) then
      (.error "negative cost values", post2)
    else if df.rows.any (fun r => decide (r.discount_amount < 0)) then
      (.error "negative discount_amount values", post2)
    else (.ok true, post2)

/-- A time-dimension row as `validate_time_dimension` reads it. -/
structure TimeRowV where
  time_key : ℕ
  date : PyDate
deriving DecidableEq, Repr

/-- A time-dimension frame: typed rows plus scratch columns. -/
structure TimeDf where
  rows : List TimeRowV
  extra : List (String × List ℕ)
deriving DecidableEq, Repr

/-- `schemas.validate_time_dimension`: range check on `time_key`, then the
scratch column `expected_key` is assigned into the input frame and compared
against `time_key`. -/
def validate_time_dimension (df : TimeDf) : Except String Bool × TimeDf :=
  let invalid_keys := df.rows.filter
    (fun r => decide (r.time_key < 19000101) || decide (r.time_key > 21001231))
  if invalid_keys ≠ [] then (.error "invalid time_key values", df)
  else
    let post : TimeDf :=
      ⟨df.rows, setCol df.extra "expected_key"
        (df.rows.map (fun r => r.date.year * 10000 + r.date.month * 100 + r.date.day))⟩
    let mismatches := df.rows.filter
      (fun r => decide (r.time_key ≠ r.date.year * 10000 + r.date.month * 100 + r.date.day))
    if mismatches ≠ [] then
      (.error "time_key values that do not match date", post)
    else (.ok true, post)

/-- Numeric value of a date; Python date comparison coincides with
comparison of these values for calendar dates. -/
def dateVal (d : PyDate) : ℕ := d.year * 10000 + d.month * 100 + d.day

/-- An SCD row as `validate_scd_type2` reads it. -/
structure ScdRow where
  product_id : String
  effective_date : PyDate
  expiration_date : PyDate
  is_current : Bool
deriving DecidableEq, Repr

/-- Adjacent-pair overlap scan of the per-key rows sorted by effective date:
`current.expiration_date > next.effective_date` is a violation. -/
def adjacentViolation : List ScdRow → Bool
  | [] => false
  | [_] => false
  | a :: b :: t =>
    decide (dateVal b.effective_date < dateVal a.expiration_date)
      || adjacentViolation (b :: t)

/-- `schemas.validate_scd_type2`: date ordering, single current row per
natural key, and no overlapping validity ranges.  The function only reads
its input; the returned frame is the input itself. -/
def validate_scd_type2 (df : List ScdRow) : Except String Bool × List ScdRow :=
  let invalid_dates := df.filter
    (fun r => decide (dateVal r.expiration_date ≤ dateVal r.effective_date))
  if invalid_dates ≠ [] then
    (.error "records with effective_date >= expiration_date", df)
  else
    let ids := (df.map (fun r => r.product_id)).dedup
    if ids.any (fun pid =>
        decide (1 < (df.filter (fun r => r.product_id == pid && r.is_current)).length)) then
      (.error "product_ids with multiple current records", df)
    else if ids.any (fun pid => adjacentViolation
        ((df.filter (fun r => r.product_id == pid)).insertionSort
          (fun a b => dateVal a.effective_date ≤ dateVal b.effective_date))) then
      (.error "Overlapping date ranges", df)
    else (.ok true, df)

/-- **C6 (code bug).** The measure validator compares `revenue` against
`quantity * unit_price` without subtracting `discount_amount`, so a row
that satisfies the spec's identity `revenue = quantity * unit_price -
discount_amount` exactly (here: quantity 1, unit price 10, discount 2,
revenue 8, cost 5, profit 3) is rejected with a revenue-calculation error
instead of passing validation. -/
theorem validate_fact_measures_rejects_valid_discounted_row :
    (|((⟨1, 1, ⟨2023, 1, 1⟩, 12, 0, 0, 20230101, 1, 1, 1, 1, 1, 10, 8, 5, 2, 3⟩ :
        FactRow)).revenue - ((1 : ℚ) * 10 - 2)| < 1/100
      ∧ |((⟨1, 1, ⟨2023, 1, 1⟩, 12, 0, 0, 20230101, 1, 1, 1, 1, 1, 10, 8, 5, 2, 3⟩ :
        FactRow)).profit - ((8 : ℚ) - 5)| < 1/100)
    ∧ (validate_fact_measures
        ⟨[⟨1, 1, ⟨2023, 1, 1⟩, 12, 0, 0, 20230101, 1, 1, 1, 1, 1, 10, 8, 5, 2, 3⟩], []⟩).1
      = .error "records with incorrect revenue calculation" := by
  refine ⟨⟨by norm_num, by norm_num⟩, ?_⟩
  norm_num [validate_fact_measures]

/-- **C10 counterexample.** `validate_time_dimension` does not leave its
input unchanged: on a well-formed one-row time frame it assigns the scratch
column `expected_key` into the input frame. -/
theorem validate_time_dimension_adds_column :
    (validate_time_dimension ⟨[⟨20230101, ⟨2023, 1, 1⟩⟩], []⟩).2
      = ⟨[⟨20230101, ⟨2023, 1, 1⟩⟩], [("expected_key", [20230101])]⟩
    ∧ (validate_time_dimension ⟨[⟨20230101, ⟨2023, 1, 1⟩⟩], []⟩).2
      ≠ ⟨[⟨20230101, ⟨2023, 1, 1⟩⟩], []⟩ := by
  constructor
  · norm_num [validate_time_dimension, setCol]
  · norm_num [validate_time_dimension, setCol]

/-- **C10 (amended).** Frame effects of the validators: none of them ever
changes the typed rows of its input, `validate_scd_type2` returns its input
frame unchanged (and `check_referential_integrity` only reads its inputs),
but `validate_time_dimension` may assign the scratch column `expected_key`
and `validate_fact_measures` the scratch columns `expected_revenue` and
`expected_profit` into the input frame. -/
theorem validators_frame_effects (t : TimeDf) (f : FactDf) (a : List ScdRow) :
    (validate_time_dimension t).2.rows = t.rows
    ∧ (∀ c, c ∈ ((validate_time_dimension t).2.extra).map Prod.fst →
        c ∈ t.extra.map Prod.fst ∨ c = "expected_key")
    ∧ (validate_fact_measures f).2.rows = f.rows
    ∧ (∀ c, c ∈ ((validate_fact_measures f).2.extra).map Prod.fst →
        c ∈ f.extra.map Prod.fst ∨ c = "expected_revenue" ∨ c = "expected_profit")
    ∧ (validate_scd_type2 a).2 = a := by
  refine ⟨?_, ?_, ?_, ?_, ?_⟩
  · simp only [validate_time_dimension]
    repeat' split
    all_goals rfl
  · intro c hc
    simp only [validate_time_dimension] at hc
    repeat' split at hc
    all_goals
      first
        | exact Or.inl hc
        | exact mem_names_setCol hc
  · simp only [validate_fact_measures]
    repeat' split
    all_goals rfl
  · intro c hc
    simp only [validate_fact_measures] at hc
    repeat' split at hc
    all_goals
      first
        | exact (mem_names_setCol hc).imp_right Or.inl
        | (rcases mem_names_setCol hc with h2 | h2
           · exact (mem_names_setCol h2).imp_right Or.inl
           · exact Or.inr (Or.inr h2))
  · simp only [validate_scd_type2]
    repeat' split
    all_goals rfl

/-- Does the list start with the pattern? (Python startswith on char lists.) -/
def startsWithL : List Char → List Char → Bool
  | [], _ => true
  | _ :: _, [] => false
  | p :: ps, x :: xs => p == x && startsWithL ps xs

/-- Fueled model of Python `str.replace(pat, rep)` on char lists (replaces all
non-overlapping occurrences left to right). -/
def replaceAllF : ℕ → List Char → List Char → List Char → List Char
  | 0, _, _, s => s
  | _ + 1, _, _, [] => []
  | fuel + 1, pat, rep, c :: rest =>
    if pat ≠ [] ∧ startsWithL pat (c :: rest) = true then
      rep ++ replaceAllF fuel pat rep (List.drop pat.length (c :: rest))
    else c :: replaceAllF fuel pat rep rest

/-- Python `s.replace(pat, rep)` for strings. -/
def pyReplace (s pat rep : String) : String :=
  ⟨replaceAllF (s.data.length + 1) pat.data rep.data s.data⟩

/-- Python `s.lower()` (ASCII-adequate model). -/
def lowerStr (s : String) : String := ⟨s.data.map Char.toLower⟩

/-- Python `pat in hay` substring test on char lists. -/
def containsSub : List Char → List Char → Bool
  | [], pat => pat.isEmpty
  | c :: t, pat => startsWithL pat (c :: t) || containsSub t pat

/-- A DataFrame as seen by `check_referential_integrity`: named key columns. -/
abbrev KeyDf := List (String × List ℕ)

/-- Column lookup, `df[col]`; `none` models a Python `KeyError`. -/
def getCol (df : KeyDf) (name : String) : Option (List ℕ) :=
  match df with
  | [] => none
  | (k, v) :: rest => if k = name then some v else getCol rest name

/-- The `for dim_key, dim_df in dimension_dfs.items(): if dim_name in
dim_key.lower(): ... break` loop: first dimension whose lowercased name
contains `dimName` as a substring. -/
def findDim (dimName : List Char) : List (String × KeyDf) → Option KeyDf
  | [] => none
  | (k, d) :: rest =>
    if containsSub (lowerStr k).data dimName = true then some d
    else findDim dimName rest

/-- The structured result dictionary of `check_referential_integrity`. -/
structure IntegrityResult where
  valid : Bool
  orphan_counts : List (String × ℕ)
  orphan_records : List (String × List ℕ)
  deriving DecidableEq

/-- One iteration of the `for fk_column, pk_column in foreign_keys.items()`
loop body. -/
def criStep (fact_df : KeyDf) (dimension_dfs : List (String × KeyDf))
    (acc : IntegrityResult) (fk : String × String) : Except String IntegrityResult :=
  let dim_name := pyReplace fk.1 "_key" ""
  match findDim dim_name.data dimension_dfs with
  | none => .error ("No dimension found for foreign key " ++ fk.1)
  | some dimension_df =>
    match getCol dimension_df fk.2, getCol fact_df fk.1 with
    | some pkCol, some fkCol =>
      let valid_keys := pkCol.dedup
      let fact_keys := fkCol.dedup
      let orphan_keys := fact_keys.filter (fun x => !valid_keys.contains x)
      if orphan_keys.isEmpty then .ok acc
      else
        .ok ⟨false, acc.orphan_counts ++ [(fk.1, orphan_keys.length)],
          acc.orphan_records ++
            [(fk.1, (orphan_keys.insertionSort (· ≤ ·)).take 10)]⟩
    | _, _ => .error "KeyError"

/-- The loop of `check_referential_integrity` over the foreign-key pairs. -/
def criAux (fact_df : KeyDf) (dimension_dfs : List (String × KeyDf)) :
    IntegrityResult → List (String × String) → Except String IntegrityResult
  | acc, [] => .ok acc
  | acc, fk :: rest =>
    match criStep fact_df dimension_dfs acc fk with
    | .error e => .error e
    | .ok acc2 => criAux fact_df dimension_dfs acc2 rest

/-- Model of `check_referential_integrity(fact_df, dimension_dfs, foreign_keys)`. -/
def check_referential_integrity (fact_df : KeyDf)
    (dimension_dfs : List (String × KeyDf)) (foreign_keys : List (String × String)) :
    Except String IntegrityResult :=
  criAux fact_df dimension_dfs ⟨true, [], []⟩ foreign_keys

/-- The distinct orphan foreign-key values of one column
(`fact_keys - valid_keys` as a deduplicated list), `[]` if unresolvable. -/
def orphansOf (fact_df : KeyDf) (dimension_dfs : List (String × KeyDf))
    (fk : String × String) : List ℕ :=
  match findDim (pyReplace fk.1 "_key" "").data dimension_dfs with
  | none => []
  | some dimension_df =>
    match getCol dimension_df fk.2, getCol fact_df fk.1 with
    | some pkCol, some fkCol =>
      fkCol.dedup.filter (fun x => !(pkCol.dedup).contains x)
    | _, _ => []

/-- Does the foreign key resolve to a dimension and do both columns exist? -/
def fkResolves (fact_df : KeyDf) (dimension_dfs : List (String × KeyDf))
    (fk : String × String) : Bool :=
  match findDim (pyReplace fk.1 "_key" "").data dimension_dfs with
  | none => false
  | some dimension_df => (getCol dimension_df fk.2).isSome && (getCol fact_df fk.1).isSome

lemma criStep_eq (fact_df : KeyDf) (dims : List (String × KeyDf))
    (acc : IntegrityResult) (fk : String × String)
    (hres : fkResolves fact_df dims fk = true) :
    criStep fact_df dims acc fk =
      .ok (if (orphansOf fact_df dims fk).isEmpty then acc
        else ⟨false, acc.orphan_counts ++ [(fk.1, (orphansOf fact_df dims fk).length)],
          acc.orphan_records ++
            [(fk.1, ((orphansOf fact_df dims fk).insertionSort (· ≤ ·)).take 10)]⟩) := by
  rcases hfind : findDim (pyReplace fk.1 "_key" "").data dims with _ | dimension_df
  · simp only [fkResolves, hfind] at hres
    exact absurd hres (by decide)
  · rcases hpk : getCol dimension_df fk.2 with _ | pkCol
    · simp only [fkResolves, hfind, hpk, Option.isSome_none, Bool.false_and] at hres
      exact absurd hres (by decide)
    rcases hfc : getCol fact_df fk.1 with _ | fkCol
    · simp only [fkResolves, hfind, hpk, hfc, Option.isSome_none, Bool.and_false] at hres
      exact absurd hres (by decide)
    have horph : orphansOf fact_df dims fk =
        fkCol.dedup.filter (fun x => !(pkCol.dedup).contains x) := by
      simp only [orphansOf, hfind, hpk, hfc]
    simp only [criStep, hfind, hpk, hfc, horph]
    split <;> rfl

lemma criAux_spec (fact_df : KeyDf) (dims : List (String × KeyDf)) :
    ∀ (fks : List (String × String)) (acc : IntegrityResult),
    (∀ fk ∈ fks, fkResolves fact_df dims fk = true) →
    ∃ r, criAux fact_df dims acc fks = .ok r
      ∧ r.valid = (acc.valid &&
          (fks.filter (fun fk => !(orphansOf fact_df dims fk).isEmpty)).isEmpty)
      ∧ r.orphan_counts = acc.orphan_counts ++
          (fks.filter (fun fk => !(orphansOf fact_df dims fk).isEmpty)).map
            (fun fk => (fk.1, (orphansOf fact_df dims fk).length))
      ∧ r.orphan_records = acc.orphan_records ++
          (fks.filter (fun fk => !(orphansOf fact_df dims fk).isEmpty)).map
            (fun fk => (fk.1, ((orphansOf fact_df dims fk).insertionSort (· ≤ ·)).take 10)) := by
  intro fks
  induction fks with
  | nil => intro acc _; exact ⟨acc, rfl, by simp, by simp, by simp⟩
  | cons fk rest ih =>
    intro acc hres
    have hstep := criStep_eq fact_df dims acc fk (hres fk (by simp))
    have hrest : ∀ p ∈ rest, fkResolves fact_df dims p = true :=
      fun p hp => hres p (by simp [hp])
    by_cases ho : (orphansOf fact_df dims fk).isEmpty
    · rw [if_pos ho] at hstep
      obtain ⟨r, hr, hv, hc, hrec⟩ := ih acc hrest
      refine ⟨r, ?_, ?_, ?_, ?_⟩
      · unfold criAux; rw [hstep]; exact hr
      · rw [hv]; simp [List.filter_cons, ho]
      · rw [hc]; simp [List.filter_cons, ho]
      · rw [hrec]; simp [List.filter_cons, ho]
    · rw [if_neg ho] at hstep
      obtain ⟨r, hr, hv, hc, hrec⟩ := ih
        ⟨false, acc.orphan_counts ++ [(fk.1, (orphansOf fact_df dims fk).length)],
          acc.orphan_records ++
            [(fk.1, ((orphansOf fact_df dims fk).insertionSort (· ≤ ·)).take 10)]⟩ hrest
      refine ⟨r, ?_, ?_, ?_, ?_⟩
      · unfold criAux; rw [hstep]; exact hr
      · rw [hv]; simp [List.filter_cons, ho]
      · rw [hc]; simp [List.filter_cons, ho]
      · rw [hrec]; simp [List.filter_cons, ho]

/-- C9: when every foreign key resolves to a dimension with the named
columns present, `check_referential_integrity` returns structured results
(no exception): `valid` is `false` iff some foreign-key column has a
non-empty set difference `fact_fk_values - dimension_pk_values`; exactly
those columns are recorded, each with its distinct orphan count and a
sorted sample of at most 10 orphan values; the input frames are untouched
(the embedding is pure and the result only reports). -/
theorem check_referential_integrity_spec (fact_df : KeyDf)
    (dims : List (String × KeyDf)) (fks : List (String × String))
    (hres : ∀ fk ∈ fks, fkResolves fact_df dims fk = true) :
    ∃ r, check_referential_integrity fact_df dims fks = .ok r
      ∧ (r.valid = false ↔ ∃ fk ∈ fks, orphansOf fact_df dims fk ≠ [])
      ∧ r.orphan_counts =
          (fks.filter (fun fk => !(orphansOf fact_df dims fk).isEmpty)).map
            (fun fk => (fk.1, (orphansOf fact_df dims fk).length))
      ∧ r.orphan_records =
          (fks.filter (fun fk => !(orphansOf fact_df dims fk).isEmpty)).map
            (fun fk => (fk.1, ((orphansOf fact_df dims fk).insertionSort (· ≤ ·)).take 10))
      ∧ ∀ p ∈ r.orphan_records, p.2.length ≤ 10 := by
  obtain ⟨r, hr, hv, hc, hrec⟩ := criAux_spec fact_df dims fks ⟨true, [], []⟩ hres
  refine ⟨r, hr, ?_, by simpa using hc, by simpa using hrec, ?_⟩
  · rw [hv]
    simp only [Bool.true_and]
    constructor
    · intro h
      rcases List.isEmpty_eq_false_iff_exists_mem.mp h with ⟨fk, hm⟩
      rcases List.mem_filter.mp hm with ⟨hmem, hne⟩
      refine ⟨fk, hmem, ?_⟩
      simp only [Bool.not_eq_eq_eq_not, Bool.not_true] at hne
      exact fun he => by simp [he] at hne
    · rintro ⟨fk, hmem, hne⟩
      apply List.isEmpty_eq_false_iff_exists_mem.mpr
      exact ⟨fk, List.mem_filter.mpr ⟨hmem, by simp [List.isEmpty_iff, hne]⟩⟩
  · intro p hp
    rw [hrec] at hp
    simp only [List.nil_append, List.mem_map] at hp
    obtain ⟨fk, _, hpe⟩ := hp
    rw [← hpe]
    exact (List.length_take _ _).trans_le (min_le_left _ _)

/-- Witness for C9 at a concrete input: fact keys {1,5,7} against dimension
keys {1} yield valid = false with orphan count 2 and samples [5, 7]. -/
theorem check_referential_integrity_spec_witness :
    ∃ r, check_referential_integrity [("time_key", [1, 5, 7, 5])]
        [("dim_time", [("time_key", [1])])] [("time_key", "time_key")] = .ok r
      ∧ (r.valid = false ↔ ∃ fk ∈ [("time_key", "time_key")],
          orphansOf [("time_key", [1, 5, 7, 5])] [("dim_time", [("time_key", [1])])] fk ≠ [])
      ∧ r.orphan_counts =
          ([("time_key", "time_key")].filter (fun fk =>
            !(orphansOf [("time_key", [1, 5, 7, 5])]
              [("dim_time", [("time_key", [1])])] fk).isEmpty)).map
            (fun fk => (fk.1, (orphansOf [("time_key", [1, 5, 7, 5])]
              [("dim_time", [("time_key", [1])])] fk).length))
      ∧ r.orphan_records =
          ([("time_key", "time_key")].filter (fun fk =>
            !(orphansOf [("time_key", [1, 5, 7, 5])]
              [("dim_time", [("time_key", [1])])] fk).isEmpty)).map
            (fun fk => (fk.1, ((orphansOf [("time_key", [1, 5, 7, 5])]
              [("dim_time", [("time_key", [1])])] fk).insertionSort (· ≤ ·)).take 10))
      ∧ ∀ p ∈ r.orphan_records, p.2.length ≤ 10 :=
  check_referential_integrity_spec [("time_key", [1, 5, 7, 5])]
    [("dim_time", [("time_key", [1])])] [("time_key", "time_key")] (by decide)

end OlapDemos
